import Mathlib

/-!
# Formal model of the Taste vibe-matching and virtual-staging pipeline

This file embeds the core of the repository in Lean:

* the vibe taxonomy and definitions (`src/shared/tasteAlgorithm.ts`),
* the taste / match scoring engine (`computeBuyerVibeVector`,
  `computeVectorMatchScore`, `computeListingVibeVector`),
* the staging prompt builder (`src/server/modules/staging/promptBuilder.ts`),
* the staging quality gate (`assessPromptForBannedTerms`,
  `assessOutputMetadataIfAvailable`),
* the staging job queue's per-job processing
  (`src/server/modules/staging/stagingQueue.ts`, including the provider
  wrapper `generateStagedImageWithProvider` and the Vertex image generator
  `generateStagedImage` it calls),
* the retry-with-exponential-backoff helper (`withRetry` in
  `src/server/routes.ts`).

JavaScript numbers are modelled as rationals (`ℚ`); `Math.round` and
`Number.prototype.toFixed` are modelled as exact half-up rounding.  JavaScript
strings are modelled as Lean `String`s, and `String.prototype.includes` as an
explicit substring search (`occursIn`).  Asynchronous effects are modelled by
explicit state passing: one staging job's life is a pure function of the job
and of the outcomes of the external calls made on its behalf.
-/

set_option maxRecDepth 16384

namespace Taste

/-! ## Strings: JavaScript string helpers

`occursIn pat s` models `s.includes(pat)` on the underlying character lists;
`jsToLower` models `String.prototype.toLowerCase` (the repository's strings
are ASCII, so per-character lowering is exact). -/

/-- `leadsWith pat l` is true iff `pat` is an initial segment of `l`. -/
def leadsWith : List Char → List Char → Bool
  | [], _ => true
  | _ :: _, [] => false
  | a :: as, b :: bs => a == b && leadsWith as bs

/-- `occursIn pat l` is true iff `pat` occurs contiguously inside `l`. -/
def occursIn (pat : List Char) : List Char → Bool
  | [] => pat.isEmpty
  | c :: rest => leadsWith pat (c :: rest) || occursIn pat rest

/-- `strIncludes s t` models JavaScript `s.includes(t)`. -/
def strIncludes (s t : String) : Bool :=
  occursIn t.data s.data

/-- `strStartsWith s t` models JavaScript `s.startsWith(t)`. -/
def strStartsWith (s t : String) : Bool :=
  leadsWith t.data s.data

/-- ASCII lower-casing of one character, as `toLowerCase` acts on the
repository's prompt strings. -/
def charLower (c : Char) : Char :=
  if 'A' ≤ c ∧ c ≤ 'Z' then Char.ofNat (c.toNat + 32) else c

/-- `jsToLower s` models `s.toLowerCase()`. -/
def jsToLower (s : String) : String :=
  ⟨s.data.map charLower⟩

/-- `joinSep sep l` models JavaScript `l.join(sep)`. -/
def joinSep (sep : String) : List String → String
  | [] => ""
  | [x] => x
  | x :: y :: rest => x ++ sep ++ joinSep sep (y :: rest)

/-- `jsOrStr s d` models the JavaScript expression `s || d` for an optional
string `s` (both `undefined`/`null` and the empty string are falsy). -/
def jsOrStr (s : Option String) (d : String) : String :=
  match s with
  | none => d
  | some v => if v = "" then d else v

/-! ## Vibe taxonomy (`src/shared/tasteAlgorithm.ts`)

The fixed closed set of 8 archetypes (`VIBES`) and their definition table
(`VIBE_DEFINITIONS`). -/

/-- The 8 fixed vibe archetypes, in the order of the `VIBES` array. -/
inductive Vibe where
  | Purist
  | Industrialist
  | Monarch
  | Futurist
  | Naturalist
  | Curator
  | Classicist
  | Nomad
deriving DecidableEq, Repr

/-- The `VIBES` constant: the 8 vibes in source order. -/
def VIBES : List Vibe :=
  [.Purist, .Industrialist, .Monarch, .Futurist, .Naturalist, .Curator,
   .Classicist, .Nomad]

/-- The string name of a vibe, as it appears in the `VIBES` array. -/
def vibeName : Vibe → String
  | .Purist => "Purist"
  | .Industrialist => "Industrialist"
  | .Monarch => "Monarch"
  | .Futurist => "Futurist"
  | .Naturalist => "Naturalist"
  | .Curator => "Curator"
  | .Classicist => "Classicist"
  | .Nomad => "Nomad"

/-- `isVibe value` models the source's membership test
`(VIBES as readonly string[]).includes(value)`; `parseVibe` additionally
recovers which vibe the string names. -/
def parseVibe (s : String) : Option Vibe :=
  VIBES.find? (fun v => vibeName v = s)

def isVibe (s : String) : Bool :=
  (parseVibe s).isSome

/-- One entry of the `VIBE_DEFINITIONS` table. -/
structure VibeDefinition where
  keywords : List String
  visualCues : List String
  psychology : List String
  copyHook : String
  forbiddenChanges : List String
  stagingDo : List String
  stagingDont : List String
  promptSeeds : List String
deriving Repr

/-- The `VIBE_DEFINITIONS` table, transcribed from
`src/shared/tasteAlgorithm.ts`. -/
def VIBE_DEFINITIONS : Vibe → VibeDefinition
  | .Purist =>
    { keywords := ["minimalist", "white", "clean lines", "seamless",
        "hidden storage", "zero clutter", "monochromatic"]
      visualCues := ["all-white interiors", "handleless cabinetry",
        "negative space", "matte natural finishes"]
      psychology := ["discipline", "clarity", "focus"]
      copyHook := "clean, clear, and mentally calm"
      forbiddenChanges := ["visual clutter", "busy patterns", "heavy ornamentation"]
      stagingDo := ["keep compositions minimal", "use soft neutrals and light oak",
        "preserve clear walkways"]
      stagingDont := ["over-accessorize", "mix too many colors",
        "introduce visually heavy furniture"]
      promptSeeds := ["japandi minimalism", "museum-clean styling",
        "soft diffused daylight"] }
  | .Industrialist =>
    { keywords := ["loft", "warehouse", "exposed brick", "concrete",
        "steel beams", "ductwork", "raw", "factory"]
      visualCues := ["high ceilings", "metal finishes", "open mechanicals",
        "large grid windows"]
      psychology := ["authenticity", "strength", "bones"]
      copyHook := "raw character with confident urban edge"
      forbiddenChanges := ["hiding structural elements", "ornate traditional decor",
        "overly polished finishes"]
      stagingDo := ["highlight existing raw textures", "layer leather and steel accents",
        "use moody contrast"]
      stagingDont := ["hide industrial bones", "use ornate traditional furniture",
        "over-polish surfaces"]
      promptSeeds := ["urban loft styling", "charcoal and rust palette",
        "editorial architectural lighting"] }
  | .Monarch =>
    { keywords := ["penthouse", "gold", "marble", "velvet", "crystal", "grand",
        "opulent", "skyline"]
      visualCues := ["black and gold contrast", "statement chandeliers",
        "high-gloss stone", "grand scale pieces"]
      psychology := ["status", "power", "dominance"]
      copyHook := "elevated luxury with status-forward impact"
      forbiddenChanges := ["budget-looking finishes", "small-scale casual decor",
        "flat low-contrast styling"]
      stagingDo := ["use premium textures", "compose with bold symmetry",
        "add elegant statement lighting"]
      stagingDont := ["use budget-looking decor", "crowd the floor plan",
        "downgrade material richness"]
      promptSeeds := ["modern luxury opulence", "black gold emerald accents",
        "high-contrast glam lighting"] }
  | .Futurist =>
    { keywords := ["smart home", "tech", "neon", "led", "glass", "chrome",
        "sleek", "automated"]
      visualCues := ["integrated lighting", "reflective surfaces", "clean geometry",
        "high-tech accents"]
      psychology := ["innovation", "speed", "efficiency"]
      copyHook := "future-ready living with precision and control"
      forbiddenChanges := ["rustic motifs", "traditional ornament", "visual noise"]
      stagingDo := ["use sleek silhouettes", "introduce integrated LED mood lighting",
        "favor glossy controlled finishes"]
      stagingDont := ["add rustic decor", "introduce visual clutter",
        "mix vintage traditional motifs"]
      promptSeeds := ["high-tech residence", "cool white and chrome palette",
        "precision cinematic lighting"] }
  | .Naturalist =>
    { keywords := ["sanctuary", "biophilic", "plants", "green", "retreat", "wood",
        "stone", "natural light"]
      visualCues := ["organic textures", "living greenery", "earthy tones",
        "indoor-outdoor continuity"]
      psychology := ["grounding", "peace", "wellness"]
      copyHook := "restorative, organic comfort that feels grounded"
      forbiddenChanges := ["harsh artificial lighting", "synthetic-heavy surfaces",
        "cold sterile palettes"]
      stagingDo := ["layer natural materials", "add biophilic greenery",
        "use warm daylight mood"]
      stagingDont := ["overuse synthetic glossy finishes", "add harsh neon tones",
        "block natural light paths"]
      promptSeeds := ["biophilic sanctuary", "sage terracotta and raw wood",
        "calm breathable atmosphere"] }
  | .Curator =>
    { keywords := ["art", "gallery", "eclectic", "bold", "color", "statement",
        "unique", "mural"]
      visualCues := ["gallery walls", "sculptural pieces", "mixed eras",
        "expressive color composition"]
      psychology := ["expression", "storytelling", "uniqueness"]
      copyHook := "high-personality spaces that tell a story"
      forbiddenChanges := ["generic cookie-cutter styling", "muted monotony",
        "removing statement pieces"]
      stagingDo := ["anchor with statement art", "mix textures intentionally",
        "create focal vignettes"]
      stagingDont := ["flatten into generic minimalism", "overmatch all furniture",
        "remove personality cues"]
      promptSeeds := ["editorial eclectic interior", "gallery-forward staging",
        "bold collected styling"] }
  | .Classicist =>
    { keywords := ["historic", "traditional", "estate", "molding", "library",
        "wood paneling", "heritage"]
      visualCues := ["symmetry", "antique accents", "dark woods",
        "timeless molding details"]
      psychology := ["legacy", "history", "respect"]
      copyHook := "timeless elegance with heritage confidence"
      forbiddenChanges := ["ultra-modern disruptions", "novelty finishes",
        "breaking formal balance"]
      stagingDo := ["maintain formal symmetry", "use timeless upholstery and woods",
        "honor architectural heritage"]
      stagingDont := ["introduce ultra-futuristic decor", "break period harmony",
        "use novelty materials"]
      promptSeeds := ["traditional heritage interior", "navy cream mahogany tones",
        "refined classic composition"] }
  | .Nomad =>
    { keywords := ["boho", "travel", "collected", "rugs", "texture", "earth tones",
        "global", "warm"]
      visualCues := ["layered textiles", "handcrafted decor", "earthy palette",
        "relaxed low-profile seating"]
      psychology := ["freedom", "warmth", "experience"]
      copyHook := "warm, traveled, and lived-in global comfort"
      forbiddenChanges := ["overly formal layouts", "sterile minimalism",
        "single-texture flatness"]
      stagingDo := ["layer textiles and artisanal pieces", "use warm earthy tones",
        "build relaxed lived-in vignettes"]
      stagingDont := ["over-formalize the space", "use sterile monochrome styling",
        "remove global character"]
      promptSeeds := ["global boho interior", "ochre sand and deep red accents",
        "warm ambient mood"] }

/-! ## JavaScript arithmetic helpers

`Math.round` rounds half-up (towards `+∞`); `Number(x.toFixed(k))` rounds the
`k`-th decimal half-up for the non-negative values arising here. -/

/-- `jsRound q` models `Math.round(q)`. -/
def jsRound (q : ℚ) : ℤ := ⌊q + 1 / 2⌋

/-- `Number(x.toFixed(4))`, as used by `computeBuyerVibeVector`. -/
def toFixed4 (q : ℚ) : ℚ := (jsRound (q * 10000) : ℚ) / 10000

/-- `Math.round(x * 1000) / 1000`, as used by `computeListingVibeVector`. -/
def round3 (q : ℚ) : ℚ := (jsRound (q * 1000) : ℚ) / 1000

/-- `Math.round(x * 100) / 100`, as used for rationale weights. -/
def round2 (q : ℚ) : ℚ := (jsRound (q * 100) : ℚ) / 100

/-- The source's `clamp(value, min, max) = Math.min(max, Math.max(min, value))`. -/
def clamp {α : Type} [LinearOrder α] (value lo hi : α) : α :=
  min hi (max lo value)

/-! ## Taste / match scoring engine (`src/shared/tasteAlgorithm.ts`) -/

/-- Buyer swipe actions. -/
inductive BuyerSwipeAction where
  | like
  | nope
  | save
  | skip
deriving DecidableEq, Repr

/-- The `ACTION_WEIGHTS` table: like=2, save=4, skip=0.5, nope=-1. -/
def ACTION_WEIGHTS : BuyerSwipeAction → ℚ
  | .like => 2
  | .save => 4
  | .skip => 1 / 2
  | .nope => -1

/-- One element of the `events` array passed to `computeBuyerVibeVector`:
a possibly-absent vibe string and an action. -/
structure SwipeEventIn where
  vibe : Option String
  action : BuyerSwipeAction

/-- The raw accumulator of `computeBuyerVibeVector`: for each event whose
vibe string names a known vibe, add the action's weight (events with an
absent, empty or unknown vibe string are skipped, since `!event.vibe` treats
the empty string as falsy and `parseVibe ""` is `none`). -/
def buyerRaw (events : List SwipeEventIn) : Vibe → ℚ :=
  events.foldl
    (fun acc e =>
      match e.vibe with
      | none => acc
      | some s =>
        match parseVibe s with
        | none => acc
        | some v => Function.update acc v (acc v + ACTION_WEIGHTS e.action))
    (fun _ => 0)

/-- `normalizedBase`: negative raw scores floored at zero. -/
def buyerFloored (events : List SwipeEventIn) (v : Vibe) : ℚ :=
  max (buyerRaw events v) 0

/-- The normalization denominator of `computeBuyerVibeVector`. -/
def buyerTotal (events : List SwipeEventIn) : ℚ :=
  (VIBES.map (buyerFloored events)).sum

/-- The result record of `computeBuyerVibeVector`. -/
structure BuyerVibeResult where
  vector : Vibe → ℚ
  topVibes : List (Vibe × ℚ)
  rationale : List (Vibe × ℚ)

/-- `computeBuyerVibeVector` from `src/shared/tasteAlgorithm.ts`: accumulate
action weights per known vibe, floor negatives at zero, normalize by the
total when it is positive (each entry rounded via `toFixed(4)`), and report
the top three vibes and rationale weights. -/
def computeBuyerVibeVector (events : List SwipeEventIn) : BuyerVibeResult :=
  let raw := buyerRaw events
  let total := buyerTotal events
  let vector := fun v => if 0 < total then toFixed4 (buyerFloored events v / total) else 0
  { vector := vector
    topVibes :=
      ((VIBES.map (fun v => (v, vector v))).mergeSort
        (fun a b => b.2 ≤ a.2)).take 3
    rationale :=
      ((VIBES.map (fun v => (v, round2 (raw v)))).mergeSort
        (fun a b => b.2 ≤ a.2)).take 3 }

/-- `Number(vec[vibe] || 0)`: a missing entry reads as 0. -/
def vecEntry (f : Vibe → Option ℚ) (v : Vibe) : ℚ :=
  (f v).getD 0

/-- Dot product over the 8-vibe domain, iterating in `VIBES` order. -/
def dotVibes (f g : Vibe → Option ℚ) : ℚ :=
  (VIBES.map (fun v => vecEntry f v * vecEntry g v)).sum

/-- `computeVectorMatchScore` from `src/shared/tasteAlgorithm.ts`: cosine
similarity of the two vectors scaled to 0..100, 0 when either argument is
absent or has zero magnitude.  The square root lives in `ℝ`, mirroring
`Math.sqrt`. -/
noncomputable def computeVectorMatchScore
    (buyerVector listingVector : Option (Vibe → Option ℚ)) : ℤ :=
  match buyerVector, listingVector with
  | some bf, some lf =>
    let dot := dotVibes bf lf
    let buyerMagSq := dotVibes bf bf
    let listingMagSq := dotVibes lf lf
    if buyerMagSq ≤ 0 ∨ listingMagSq ≤ 0 then 0
    else
      clamp (round ((dot : ℝ) / (Real.sqrt (buyerMagSq : ℝ) * Real.sqrt (listingMagSq : ℝ)) * 100)) 0 100
  | _, _ => 0

/-- Input of `computeListingVibeVector` (`src/unnamed/part_002`).
`structuredJson` stands for the string `JSON.stringify(input.structured || \x7b\x7d)`;
when no structured fields are given the serializer yields `"\x7b\x7d"`. -/
structure ListingComputeInput where
  description : Option String
  photosText : Option String
  structuredJson : String

/-- The lowercased haystack `[description || "", photosText || "",
JSON.stringify(structured || \x7b\x7d)].join(" ").toLowerCase()`. -/
def listingHaystack (input : ListingComputeInput) : String :=
  jsToLower (joinSep " "
    [input.description.getD "", input.photosText.getD "", input.structuredJson])

/-- Per-vibe raw score of `computeListingVibeVector`: the number of the
vibe's keyword and visual-cue terms occurring in the haystack, floored at
`0.01`. -/
def listingScore (haystack : String) (v : Vibe) : ℚ :=
  let d := VIBE_DEFINITIONS v
  let terms := d.keywords ++ d.visualCues
  let matched := terms.filter (fun t => strIncludes haystack (jsToLower t))
  max (1 / 100) (matched.length : ℚ)

/-- The matched terms of one vibe (for the rationale). -/
def listingMatched (haystack : String) (v : Vibe) : List String :=
  let d := VIBE_DEFINITIONS v
  (d.keywords ++ d.visualCues).filter (fun t => strIncludes haystack (jsToLower t))

/-- The normalization denominator `total || 1`. -/
def listingTotal (haystack : String) : ℚ :=
  let t := (VIBES.map (listingScore haystack)).sum
  if t = 0 then 1 else t

/-- The result record of `computeListingVibeVector`. -/
structure ListingVibeResult where
  vibeVector : Vibe → ℚ
  topVibes : List (Vibe × ℚ)
  rationale : List (Vibe × List String × ℚ)
  algorithmVersion : String

/-- `computeListingVibeVector` from `src/unnamed/part_002`: substring-count
scores with floor `0.01`, normalized by the total and rounded to three
decimals. -/
def computeListingVibeVector (input : ListingComputeInput) : ListingVibeResult :=
  let haystack := listingHaystack input
  let total := listingTotal haystack
  let vibeVector := fun v => round3 (listingScore haystack v / total)
  { vibeVector := vibeVector
    topVibes :=
      ((VIBES.map (fun v => (v, round3 (vibeVector v)))).mergeSort
        (fun a b => b.2 ≤ a.2)).take 3
    rationale :=
      (((VIBES.map (fun v =>
          (v, (listingMatched haystack v).take 8, round2 (listingScore haystack v)))).mergeSort
        (fun a b => b.2.2 ≤ a.2.2)).take 3)
    algorithmVersion := "taste-portfolio-v1" }

/-! ## Staging prompt builder (`src/server/modules/staging/promptBuilder.ts`) -/

/-- Room types accepted by the staging module (`stagingTypes.ts`). -/
inductive RoomType where
  | living
  | bed
  | kitchen
  | bath
  | office
  | dining
  | other
deriving DecidableEq, Repr

def roomTypeName : RoomType → String
  | .living => "living"
  | .bed => "bed"
  | .kitchen => "kitchen"
  | .bath => "bath"
  | .office => "office"
  | .dining => "dining"
  | .other => "other"

/-- The builder's strictness argument. -/
inductive Strictness where
  | normal
  | strict
deriving DecidableEq, Repr

/-- An item of the staging catalog, as used by
`STAGING_CATALOG.map((item) => ...)` in the prompt builder. -/
structure CatalogItem where
  id : String
  label : String
  category : String
deriving Repr

/-- Modelled from the spec: `STAGING_CATALOG` is imported from
`./stagingCatalog`, a file absent from the sources (only its importer,
`promptBuilder.ts`, is present).  The spec's prompt contract (§4.3) lists the
prompt's components without any catalog content, so the table is modelled as
empty; definitions below that depend on the catalog take it as an explicit
parameter so that catalog-independent facts are proved for every catalog. -/
def STAGING_CATALOG : List CatalogItem := []

def HARD_CONSTRAINT_BLOCK : String :=
  "EDIT the provided photo to virtually stage this exact room. Preserve camera viewpoint and lens exactly as captured. Do not change architecture, layout, room boundaries, or any structural surface. Add or remove movable furniture and decor only."

def CHECKLIST_BLOCK : String :=
  "Checklist: Preserve camera angle and perspective. Preserve walls, floors, ceiling, windows, doors, trim, built-ins. Do not repaint or change materials. Keep lighting natural and consistent with the original photo. Add staging items only; keep scale realistic. Photorealistic; realistic shadows; no surreal artifacts."

def BASE_NEGATIVE_PROMPT : String :=
  "renovation, remodel, construction, carpentry, new window, new door, remove wall, add wall, change flooring, change ceiling, change layout, built-in cabinetry, structural beams, demolition"

/-- The `\x7bprompt, negativePrompt\x7d` pair returned by the builder. -/
structure PromptPair where
  prompt : String
  negativePrompt : String
deriving DecidableEq, Repr

/-- The body of `buildStagingPrompt`, abstracted over the vibe definition
actually looked up and the raw vibe-id string interpolated into
`Vibe: ...` (the source reads both off `VIBE_DEFINITIONS[vibeId]` and
`vibeId`). -/
def buildFromDef (catalog : List CatalogItem) (d : VibeDefinition)
    (vibeIdStr : String) (roomType : RoomType)
    (optionalRoomNotes : Option String) (strictness : Strictness) : PromptPair :=
  let designPrinciples := joinSep ", " d.psychology
  let furnitureKit := joinSep ", " d.stagingDo
  let visualKeywords := joinSep ", " d.visualCues
  let catalogLines := joinSep "\n"
    (catalog.map (fun item => item.id ++ " — " ++ item.label ++ " (" ++ item.category ++ ")"))
  let strictCatalogGuard :=
    if strictness = .strict then
      "Do not add any objects not listed in Allowed staging items."
    else ""
  let notesSegment :=
    match optionalRoomNotes with
    | some n => if n = "" then "" else "Room notes: " ++ n ++ "."
    | none => ""
  let prompt := joinSep " "
    (([HARD_CONSTRAINT_BLOCK,
       "Room type: " ++ roomTypeName roomType ++ ".",
       notesSegment,
       "Vibe: " ++ vibeIdStr ++ ".",
       "Design principles: " ++ designPrinciples ++ ".",
       "Furniture kit: " ++ furnitureKit ++ ".",
       "Visual keywords: " ++ visualKeywords ++ ".",
       "Allowed additions only: furniture, decor, textiles, lighting fixtures, wall art, plants, rugs, accessories.",
       "Do not modify floors, walls, windows, doors, ceiling, built-ins, cabinetry, or any structural element.",
       "Composition: photorealistic, natural lighting, interior photography, coherent scale, realistic shadows.",
       "Allowed staging items (MUST choose ONLY from these IDs; do not invent new items):",
       catalogLines,
       "Choose 5–8 items maximum. If unsure, prefer safer neutral options.",
       strictCatalogGuard,
       CHECKLIST_BLOCK]).filter (fun s => s ≠ ""))
  let vibeNegative := joinSep ", " d.forbiddenChanges
  let strictSuffix :=
    if strictness = .strict then
      ", ABSOLUTELY NO ARCHITECTURAL CHANGES, no perspective change, no lens change, no layout change, no structural change"
    else ""
  let negativePrompt := BASE_NEGATIVE_PROMPT ++ ", " ++ vibeNegative ++ strictSuffix
  { prompt := prompt, negativePrompt := negativePrompt }

/-- `buildStagingPrompt` for a well-typed vibe id, with the catalog explicit. -/
def buildStagingPromptWith (catalog : List CatalogItem) (vibeId : Vibe)
    (roomType : RoomType) (optionalRoomNotes : Option String)
    (strictness : Strictness) : PromptPair :=
  buildFromDef catalog (VIBE_DEFINITIONS vibeId) (vibeName vibeId) roomType
    optionalRoomNotes strictness

/-- `buildStagingPrompt` as deployed (spec-modelled empty catalog). -/
def buildStagingPrompt (vibeId : Vibe) (roomType : RoomType)
    (optionalRoomNotes : Option String) (strictness : Strictness) : PromptPair :=
  buildStagingPromptWith STAGING_CATALOG vibeId roomType optionalRoomNotes strictness

/-- `buildStagingPrompt` reached with an arbitrary runtime vibe-id string:
the source performs the unguarded lookup `VIBE_DEFINITIONS[vibeId]` and then
dereferences the result, so a string outside the taxonomy yields no prompt
pair (`none` models the `TypeError` on the `undefined` lookup). -/
def buildStagingPromptDyn (catalog : List CatalogItem) (vibeId : String)
    (roomType : RoomType) (optionalRoomNotes : Option String)
    (strictness : Strictness) : Option PromptPair :=
  (parseVibe vibeId).map
    (fun v => buildFromDef catalog (VIBE_DEFINITIONS v) vibeId roomType
      optionalRoomNotes strictness)

/-! ## Shared prompt builder (`src/shared/tasteAlgorithm.ts`)

The string-returning `buildStagingPrompt` of the shared taste algorithm,
which is the builder with the documented "Classicist" fallback. -/

def REQUIRED_STAGING_CONSTRAINTS : List String :=
  ["interior designer only", "no renovation", "no structural changes",
   "same room geometry", "keep windows/doors positions", "no carpentry",
   "no layout change"]

/-- `buildStagingPrompt` from `src/shared/tasteAlgorithm.ts`: unknown vibe
strings are normalized to `"Classicist"` before the table lookup. -/
def sharedBuildStagingPrompt (vibe : String) (roomDescription : Option String)
    (constraints : Option (List String)) : String :=
  let normalized := if isVibe vibe then vibe else "Classicist"
  let definition := VIBE_DEFINITIONS ((parseVibe normalized).getD .Classicist)
  let allConstraints := REQUIRED_STAGING_CONSTRAINTS ++ constraints.getD []
  let uniqueConstraints :=
    ((allConstraints.map String.trim).filter (fun c => c ≠ "")).eraseDups
  joinSep " "
    ["Photorealistic virtual staging prompt for Imagen.",
     "Style target: " ++ normalized ++ ".",
     "Room context: " ++
       jsOrStr (roomDescription.map String.trim) "empty room for virtual staging" ++ ".",
     "Design cues: " ++ joinSep ", " definition.promptSeeds ++ ".",
     "Visual cues: " ++ joinSep ", " definition.visualCues ++ ".",
     "Do: " ++ joinSep "; " definition.stagingDo ++ ".",
     "Do not: " ++ joinSep "; " definition.stagingDont ++ ".",
     "Constraints: " ++ joinSep ", " uniqueConstraints ++ ".",
     "Use only furniture and decor styling changes; preserve architecture and perspective exactly."]

/-! ## Staging quality gate (`src/unnamed/part_003`, i.e. `stagingQualityGate.ts`) -/

/-- One entry of `REQUIRED_CONCEPTS`: every token of `all` and at least one
token of `anyOf` must occur in the lowercased prompt. -/
structure RequiredConcept where
  name : String
  all : List String
  anyOf : List String

def REQUIRED_CONCEPTS : List RequiredConcept :=
  [{ name := "camera_preservation", all := ["camera"],
     anyOf := ["angle", "perspective", "viewpoint"] },
   { name := "architecture_preservation", all := ["preserve"],
     anyOf := ["walls", "windows", "doors", "ceiling", "built-ins"] },
   { name := "no_renovation", all := ["do not"],
     anyOf := ["renovate", "remodel", "structural"] },
   { name := "allowed_additions_only", all := ["only"],
     anyOf := ["furniture", "decor", "rugs", "lighting", "art", "plants"] }]

def RENOVATION_TERMS : List String :=
  ["knock down wall", "knock down walls", "add skylight", "new skylight",
   "change cabinetry", "upgrade finishes", "demolition", "remove wall",
   "add wall", "new window", "new door", "change flooring", "change layout"]

/-- `assessPromptForBannedTerms` from the staging quality gate: flags in the
order the source pushes them. -/
def assessPromptForBannedTerms (prompt negativePrompt : String) : List String :=
  let lowerPrompt := jsToLower prompt
  let lowerNegative := jsToLower negativePrompt
  (if strIncludes prompt HARD_CONSTRAINT_BLOCK then []
   else ["missing_hard_constraint_block"]) ++
  (REQUIRED_CONCEPTS.filterMap (fun concept =>
    let hasAll := concept.all.all (fun token => strIncludes lowerPrompt token)
    let hasAny := concept.anyOf.any (fun token => strIncludes lowerPrompt token)
    if !hasAll || !hasAny then some ("missing_required_concept:" ++ concept.name)
    else none)) ++
  (RENOVATION_TERMS.filterMap (fun term =>
    if strIncludes lowerPrompt term then
      some ("renovation_keyword_in_prompt:" ++ term)
    else none)) ++
  (if !strIncludes lowerNegative "no architectural changes" &&
      !strIncludes lowerNegative "change layout" then
    ["negative_prompt_not_strict_enough"]
   else [])

/-- Provider output metadata, as consumed by
`assessOutputMetadataIfAvailable`. -/
structure ProviderMeta where
  safetyBlocked : Bool
  geometryChanged : Option Bool
deriving DecidableEq, Repr

/-- `assessOutputMetadataIfAvailable`: empty when no metadata is given. -/
def assessOutputMetadataIfAvailable (providerMeta : Option ProviderMeta) : List String :=
  match providerMeta with
  | none => []
  | some m =>
    (if m.safetyBlocked then ["provider_safety_blocked"] else []) ++
    (if m.geometryChanged = some true then ["geometry_change_suspected"] else [])

/-! ## Vertex image generation (`src/server/vertexImagegen.ts`)

`generateStagedImage` is a pure function of the outcome of the one network
interaction it performs (the `client.predict` call), plus the
credentials-configured check.  A thrown quota error is modelled as
`Except.error`; every other path returns an `ImageGenerationResult`. -/

/-- The `ImageGenerationResult` interface. -/
structure ImageGenerationResult where
  success : Bool
  imageData : Option String
  error : Option String
  safetyBlocked : Option Bool
deriving DecidableEq, Repr

/-- One prediction of the Vertex response, abstracted to the fields the
source inspects: whether the nested
`safetyAttributes...blocked.boolValue === true` check fires, the
`bytesBase64Encoded` string value if present, and the names of the available
fields (used only in an error message). -/
structure VertexPrediction where
  safetyBlocked : Bool
  bytesBase64Encoded : Option String
  availableFields : List String
deriving Repr

/-- The outcome of one `generateStagedImage` run's environment:
credentials missing, `client.predict` throwing with a message, or a response
with a (possibly empty) predictions array. -/
inductive VertexOutcome where
  | noCredentials
  | throwErr (msg : String)
  | response (predictions : List VertexPrediction)

/-- The quota/429 classification used in the source's catch block:
`error.message?.includes("quota") || ...("429") || ...("Resource exhausted")`. -/
def isQuotaMessage (msg : String) : Bool :=
  strIncludes msg "quota" || strIncludes msg "429" || strIncludes msg "Resource exhausted"

/-- `generateStagedImage` from `src/server/vertexImagegen.ts`.
`Except.error` is the re-thrown quota error; all other branches return a
result record. -/
def generateStagedImage (outcome : VertexOutcome) :
    Except String ImageGenerationResult :=
  match outcome with
  | .noCredentials =>
    .ok { success := false, imageData := none,
          error := some "GOOGLE_APPLICATION_CREDENTIALS not configured",
          safetyBlocked := none }
  | .response preds =>
    match preds with
    | [] =>
      .ok { success := false, imageData := none,
            error := some "No image generated — empty predictions array",
            safetyBlocked := none }
    | p :: _ =>
      if p.safetyBlocked then
        .ok { success := false, imageData := none,
              error := some "Image generation blocked by safety filter. Please try a different prompt or room description.",
              safetyBlocked := some true }
      else
        match p.bytesBase64Encoded with
        | none =>
          .ok { success := false, imageData := none,
                error := some ("No image data in response. Fields found: " ++
                  jsOrStr (some (joinSep ", " p.availableFields)) "none"),
                safetyBlocked := none }
        | some bytes =>
          .ok { success := true, imageData := some bytes, error := none,
                safetyBlocked := none }
  | .throwErr msg =>
    if isQuotaMessage msg then .error msg
    else if strIncludes msg "permission" || strIncludes msg "403" then
      .ok { success := false, imageData := none,
            error := some "Vertex AI API not enabled or insufficient permissions. Check your Google Cloud console.",
            safetyBlocked := none }
    else
      .ok { success := false, imageData := none,
            error := some ("Image generation failed: " ++ msg),
            safetyBlocked := none }

/-! ## Staging provider wrapper (`stagingProvider.ts`, appended to
`src/server/modules/staging/stagingQueue.ts`) -/

/-- The outcome of the `fetch` performed by `urlToDataUrl` for an http(s)
input image: either a rejection with a message, or a completed request that
yields an optional data URL (a non-ok response or missing body yields
`none`). -/
inductive FetchOutcome where
  | throwMsg (msg : String)
  | done (dataUrl : Option String)

/-- `urlToDataUrl`: data URLs pass through, non-http(s) URLs give
`undefined`, http(s) URLs perform the fetch (whose rejection propagates). -/
def urlToDataUrl (imageUrl : String) (fetchOutcome : FetchOutcome) :
    Except String (Option String) :=
  if strStartsWith imageUrl "data:image/" then .ok (some imageUrl)
  else if !(strStartsWith imageUrl "http://" || strStartsWith imageUrl "https://") then
    .ok none
  else
    match fetchOutcome with
    | .throwMsg m => .error m
    | .done r => .ok r

/-- The argument record of `generateStagedImageWithProvider`. -/
structure ProviderGenerateInput where
  inputImageUrl : String
  prompt : String
  negativePrompt : String
deriving DecidableEq, Repr

/-- The success value of `generateStagedImageWithProvider`. -/
structure ProviderGenerateOutput where
  outputImageUrl : String
  providerMeta : Option ProviderMeta
deriving DecidableEq, Repr

/-- The external-world outcomes backing one provider attempt: the
`urlToDataUrl` fetch and the Vertex call. -/
structure AttemptEnv where
  fetch : FetchOutcome
  vertex : VertexOutcome

/-- `generateStagedImageWithProvider`: resolve the reference image, call
`generateStagedImage`, throw `result.error || "staging_generation_failed"`
when `!result.success || !result.imageData` (the empty string is falsy), and
otherwise return the data-URL output with
`providerMeta = \x7b safetyBlocked: result.safetyBlocked || false \x7d`. -/
def generateStagedImageWithProvider (input : ProviderGenerateInput)
    (env : AttemptEnv) : Except String ProviderGenerateOutput := do
  let _referenceImage ← urlToDataUrl input.inputImageUrl env.fetch
  match generateStagedImage env.vertex with
  | .error e => .error e
  | .ok result =>
    match result.imageData with
    | some data =>
      if result.success && data != "" then
        .ok { outputImageUrl := "data:image/png;base64," ++ data
              providerMeta := some { safetyBlocked := result.safetyBlocked.getD false
                                     geometryChanged := none } }
      else
        .error (jsOrStr result.error "staging_generation_failed")
    | none => .error (jsOrStr result.error "staging_generation_failed")

/-! ## Staging job queue (`src/server/modules/staging/stagingQueue.ts`)

`StagingQueue.process` handles one job sequentially; its effect on the job is
a pure function of the job and of the attempt environments consumed by the
provider calls it makes.  We record the in-memory status after every
`updateJob` call (the status trace), the provider calls issued, the final
in-memory job state, and whether a staging asset row was inserted. -/

/-- Job lifecycle states (`StagingJobStatus`). -/
inductive JobStatus where
  | queued
  | running
  | done
  | failed
  | flagged
deriving DecidableEq, Repr

/-- Terminal states per the spec's state machine. -/
def JobStatus.isTerminal : JobStatus → Bool
  | .done | .failed | .flagged => true
  | _ => false

/-- The queue's in-memory `JobState` (timestamps omitted: wall-clock time is
not modelled). -/
structure JobStateM where
  status : JobStatus
  error : Option String
  qualityFlags : Option (List String)
deriving DecidableEq, Repr

/-- A queued job (`QueueJob`). -/
structure QueueJob where
  jobId : String
  inputImageUrl : String
  prompt : String
  negativePrompt : String
  vibeId : String
deriving DecidableEq, Repr

/-- `patch.error || undefined` / `patch.qualityFlags || undefined` as stored
in the in-memory map: `null`, `undefined` and `""` all collapse to absent
(an empty flags array is truthy and is kept). -/
def jsErrField (e : Option String) : Option String :=
  match e with
  | none => none
  | some v => if v = "" then none else some v

/-- The escalation clause appended before the retry. -/
def ESCALATION_CLAUSE : String := ", ABSOLUTELY NO ARCHITECTURAL CHANGES"

/-- The result of processing one job. -/
structure ProcessResult where
  statusTrace : List JobStatus
  providerCalls : List ProviderGenerateInput
  finalState : JobStateM
  assetCreated : Bool
deriving Repr

/-- `lastError = error?.message || "generation_failed"` in the catch block. -/
def caughtMessage (msg : String) : String :=
  jsOrStr (some msg) "generation_failed"

/-- One `enqueue`d job followed by `StagingQueue.process`, as a pure function
of the job and the attempt environments of the (at most two) provider calls.
The trace starts with `queued` (set by `enqueue`); every `updateJob` call
appends the in-memory status it leaves behind. -/
def processJob (job : QueueJob) (env : ℕ → AttemptEnv) : ProcessResult :=
  let promptFlags := assessPromptForBannedTerms job.prompt job.negativePrompt
  if promptFlags ≠ [] then
    { statusTrace := [.queued, .running, .flagged]
      providerCalls := []
      finalState := { status := .flagged
                      error := jsErrField (some "Prompt failed staging quality gate.")
                      qualityFlags := some promptFlags }
      assetCreated := false }
  else
    let call0 : ProviderGenerateInput :=
      { inputImageUrl := job.inputImageUrl, prompt := job.prompt
        negativePrompt := job.negativePrompt }
    match generateStagedImageWithProvider call0 (env 0) with
    | .ok generated =>
      finishSuccess [.queued, .running] [call0] generated
    | .error _e0 =>
      let escalated := job.negativePrompt ++ ESCALATION_CLAUSE
      let call1 : ProviderGenerateInput :=
        { inputImageUrl := job.inputImageUrl, prompt := job.prompt
          negativePrompt := escalated }
      -- the `negativePromptUsed` update keeps the current status (`running`)
      match generateStagedImageWithProvider call1 (env 1) with
      | .ok generated =>
        finishSuccess [.queued, .running, .running] [call0, call1] generated
      | .error e1 =>
        -- `lastError` is overwritten by the second catch
        let lastError := caughtMessage e1
        { statusTrace := [.queued, .running, .running, .failed]
          providerCalls := [call0, call1]
          finalState := { status := .failed
                          error := jsErrField
                            (some (jsOrStr (some lastError) "Staging generation failed after retry."))
                          qualityFlags := none }
          assetCreated := false }
where
  /-- The success tail of `process`: output-metadata gate, then `flagged` or
  `done` (+ asset insert). -/
  finishSuccess (traceSoFar : List JobStatus) (calls : List ProviderGenerateInput)
      (generated : ProviderGenerateOutput) : ProcessResult :=
    let outputFlags := assessOutputMetadataIfAvailable generated.providerMeta
    if outputFlags ≠ [] then
      { statusTrace := traceSoFar ++ [.flagged]
        providerCalls := calls
        finalState := { status := .flagged
                        error := jsErrField (some "Output flagged by staging quality gate.")
                        qualityFlags := some outputFlags }
        assetCreated := false }
    else
      { statusTrace := traceSoFar ++ [.done]
        providerCalls := calls
        finalState := { status := .done, error := none, qualityFlags := some [] }
        assetCreated := true }

/-! ## Rate-limit retry helper (`withRetry` in `src/server/routes.ts`) -/

/-- The record of one `withRetry` run: its final outcome, how many times the
task was invoked, and the delays slept before each retry. -/
structure RetryResult (α : Type) where
  outcome : Except String α
  calls : ℕ
  delays : List ℕ
deriving Repr

/-- The loop of `withRetry`: `attempt` ranges over `attempt ≤ maxRetries`;
`remaining = maxRetries - attempt` drives the recursion.  On a failure that
is not quota/429-class, or on the final attempt, the error is thrown
immediately; otherwise the loop sleeps `baseDelay * 2 ^ attempt` and
retries. -/
def withRetryGo {α : Type} (fn : ℕ → Except String α) (baseDelay : ℕ) :
    (attempt remaining : ℕ) → RetryResult α
  | attempt, 0 =>
    -- final attempt: a success returns, any failure is thrown as-is
    { outcome := fn attempt, calls := 1, delays := [] }
  | attempt, remaining + 1 =>
    match fn attempt with
    | .ok a => { outcome := .ok a, calls := 1, delays := [] }
    | .error e =>
      if isQuotaMessage e then
        let rest := withRetryGo fn baseDelay (attempt + 1) remaining
        { outcome := rest.outcome, calls := rest.calls + 1
          delays := baseDelay * 2 ^ attempt :: rest.delays }
      else
        { outcome := .error e, calls := 1, delays := [] }

/-- `withRetry` from `src/server/routes.ts` (defaults `maxRetries = 3`,
`baseDelay = 5000`), over the sequence of outcomes of the wrapped task's
invocations. -/
def withRetry {α : Type} (fn : ℕ → Except String α) (maxRetries : ℕ := 3)
    (baseDelay : ℕ := 5000) : RetryResult α :=
  withRetryGo fn baseDelay 0 maxRetries

/-! ## Auxiliary predicates and concrete instances used by the theorems -/

/-- A segment string is "boundary safe" for the renovation scan when its
lowercased form ends with `'.'` or `':'` — characters no renovation term
contains — so no term can straddle out of it in a space-join. -/
def lastCharSafe (s : String) : Bool :=
  match (jsToLower s).data.getLast? with
  | some '.' => true
  | some ':' => true
  | _ => false

/-- A pattern suitable for the join lemma: nonempty, not starting with a
space, containing neither `'.'` nor `':'`. -/
def joinSafePattern (pat : List Char) : Bool :=
  !pat.isEmpty && pat.head? != some ' ' && decide ('.' ∉ pat) && decide (':' ∉ pat)

/-- Renovation-cleanliness of one prompt segment. -/
def noRenoSeg (s : String) : Bool :=
  RENOVATION_TERMS.all (fun t => !occursIn t.data (jsToLower s).data) &&
    lastCharSafe s

/-- The unit vector at `Purist`, used as the C7 witness input. -/
def puristUnit : Vibe → Option ℚ :=
  fun v => if v = .Purist then some 1 else none

/-- C9 witness task: a quota failure, then a non-quota failure. -/
def retryWitnessTask : ℕ → Except String Unit :=
  fun i => if i = 0 then .error "429 rate limited" else .error "boom"

/-- The C4 counterexample events: one `like` and three `nope`s on `Purist`.
The like carries positive weight, yet the accumulated raw weight is
`2 - 3 = -1`, which floors to 0, so the vector sums to 0, not 1. -/
def cexEvents : List SwipeEventIn :=
  [{ vibe := some "Purist", action := .like },
   { vibe := some "Purist", action := .nope },
   { vibe := some "Purist", action := .nope },
   { vibe := some "Purist", action := .nope }]

/-- The C8 counterexample input: a description matching exactly two Purist
terms and nothing else. -/
def cListingInput : ListingComputeInput :=
  { description := some "minimalist white", photosText := none,
    structuredJson := "\x7b\x7d" }

/-- A job whose prompt trivially fails the gate. -/
def cGateJob : QueueJob :=
  { jobId := "job-1", inputImageUrl := "http://example.com/in.png",
    prompt := "hello", negativePrompt := "x", vibeId := "Purist" }

/-- An arbitrary environment (never consulted when the gate fails). -/
def cIdleEnv : ℕ → AttemptEnv :=
  fun _ => { fetch := .done none, vertex := .response [] }

/-- No status trace position strictly after a terminal status differs from
it: once terminal, always that same terminal status. -/
def noTerminalEscape (trace : List JobStatus) : Prop :=
  ∀ (i j : Fin trace.length), (i : ℕ) ≤ (j : ℕ) →
    (trace.get i).isTerminal = true → trace.get j = trace.get i

instance (trace : List JobStatus) : Decidable (noTerminalEscape trace) := by
  unfold noTerminalEscape
  infer_instance

/-- A C1 job whose prompt passes the gate: the hard-constraint block plus
the do-not-modify boilerplate, with the base negative prompt. -/
def c1Job : QueueJob :=
  { jobId := "job-2", inputImageUrl := "https://example.com/room.jpg",
    prompt := joinSep " " [HARD_CONSTRAINT_BLOCK,
      "Do not modify floors, walls, windows, doors, ceiling, built-ins, cabinetry, or any structural element."],
    negativePrompt := BASE_NEGATIVE_PROMPT, vibeId := "Purist" }

/-- Both provider attempts fail with an empty-message rejection. -/
def c1FailEnv : ℕ → AttemptEnv :=
  fun _ => { fetch := .throwMsg "", vertex := .response [] }

/-- Both provider attempts fail with a non-empty message. -/
def c1MsgEnv : ℕ → AttemptEnv :=
  fun _ => { fetch := .throwMsg "network down", vertex := .response [] }

/-- Room notes containing renovation vocabulary. -/
def renoNotes : String := "knock down wall between kitchen and dining"

/-! ## Rounding-approximation lemmas -/

theorem abs_jsRound_sub (q : ℚ) : |(jsRound q : ℚ) - q| ≤ 1 / 2 := by
  rw [abs_le]
  constructor
  · have h := Int.lt_floor_add_one (q + 1 / 2)
    have : q + 1 / 2 - 1 < (jsRound q : ℚ) := by
      unfold jsRound; linarith
    linarith
  · have h := Int.floor_le (q + 1 / 2)
    unfold jsRound; linarith [h]

theorem abs_toFixed4_sub (q : ℚ) : |toFixed4 q - q| ≤ 1 / 20000 := by
  have h := abs_jsRound_sub (q * 10000)
  unfold toFixed4
  have : (jsRound (q * 10000) : ℚ) / 10000 - q
      = ((jsRound (q * 10000) : ℚ) - q * 10000) / 10000 := by ring
  rw [this, abs_div]
  rw [show |(10000 : ℚ)| = 10000 by norm_num]
  calc |(jsRound (q * 10000) : ℚ) - q * 10000| / 10000 ≤ (1 / 2) / 10000 := by gcongr
    _ = 1 / 20000 := by norm_num

theorem abs_round3_sub (q : ℚ) : |round3 q - q| ≤ 1 / 2000 := by
  have h := abs_jsRound_sub (q * 1000)
  unfold round3
  have : (jsRound (q * 1000) : ℚ) / 1000 - q
      = ((jsRound (q * 1000) : ℚ) - q * 1000) / 1000 := by ring
  rw [this, abs_div]
  rw [show |(1000 : ℚ)| = 1000 by norm_num]
  calc |(jsRound (q * 1000) : ℚ) - q * 1000| / 1000 ≤ (1 / 2) / 1000 := by gcongr
    _ = 1 / 2000 := by norm_num

/-- Summing pointwise approximations over a list accumulates at most
`length * c` error. -/
theorem abs_sum_map_sub_sum_map {α : Type} (l : List α) (f g : α → ℚ) (c : ℚ)
    (h : ∀ x ∈ l, |f x - g x| ≤ c) :
    |(l.map f).sum - (l.map g).sum| ≤ l.length * c := by
  induction l with
  | nil => simp
  | cons x rest ih =>
    have hx := h x (List.mem_cons_self x rest)
    have hrest := ih (fun y hy => h y (List.mem_cons_of_mem x hy))
    have : (List.map f (x :: rest)).sum - (List.map g (x :: rest)).sum
        = (f x - g x) + ((rest.map f).sum - (rest.map g).sum) := by
      simp; ring
    rw [this]
    calc |(f x - g x) + ((rest.map f).sum - (rest.map g).sum)|
        ≤ |f x - g x| + |(rest.map f).sum - (rest.map g).sum| := abs_add _ _
      _ ≤ c + rest.length * c := add_le_add hx hrest
      _ = (x :: rest).length * c := by simp; ring

/-- Dividing each summand by `t` divides the sum by `t`. -/
theorem sum_map_div {α : Type} (l : List α) (f : α → ℚ) (t : ℚ) :
    (l.map (fun x => f x / t)).sum = (l.map f).sum / t := by
  induction l with
  | nil => simp
  | cons x rest ih => simp [ih, add_div]

/-! ## Basic substring lemmas -/

theorem leadsWith_iff (pat l : List Char) :
    leadsWith pat l = true ↔ ∃ q, l = pat ++ q := by
  induction pat generalizing l with
  | nil => simp [leadsWith]
  | cons a as ih =>
    cases l with
    | nil => simp [leadsWith]
    | cons b bs =>
      simp only [leadsWith, Bool.and_eq_true, beq_iff_eq, ih, List.cons_append,
        List.cons.injEq]
      constructor
      · rintro ⟨rfl, q, rfl⟩; exact ⟨q, rfl, rfl⟩
      · rintro ⟨q, rfl, rfl⟩; exact ⟨rfl, q, rfl⟩

theorem occursIn_iff (pat l : List Char) :
    occursIn pat l = true ↔ ∃ p q, l = p ++ pat ++ q := by
  induction l with
  | nil =>
    simp only [occursIn, List.isEmpty_iff]
    constructor
    · rintro rfl; exact ⟨[], [], rfl⟩
    · rintro ⟨p, q, h⟩
      rcases List.append_eq_nil.mp h.symm with ⟨h1, h2⟩
      exact (List.append_eq_nil.mp h1).2
  | cons c rest ih =>
    simp only [occursIn, Bool.or_eq_true, leadsWith_iff, ih]
    constructor
    · rintro (⟨q, h⟩ | ⟨p, q, h⟩)
      · exact ⟨[], q, by simpa using h⟩
      · exact ⟨c :: p, q, by simp [h]⟩
    · rintro ⟨p, q, h⟩
      cases p with
      | nil => exact Or.inl ⟨q, by simpa using h⟩
      | cons x xs =>
        have h' : c = x ∧ rest = xs ++ (pat ++ q) := by simpa using h
        exact Or.inr ⟨xs, q, by simp [h'.2]⟩

/-- Substring occurrence survives extending the haystack on the right. -/
theorem occursIn_append_right {pat a : List Char} (b : List Char)
    (h : occursIn pat a = true) : occursIn pat (a ++ b) = true := by
  rcases (occursIn_iff pat a).mp h with ⟨p, q, rfl⟩
  exact (occursIn_iff pat _).mpr ⟨p, q ++ b, by simp⟩

/-- Substring occurrence survives extending the haystack on the left. -/
theorem occursIn_append_left {pat b : List Char} (a : List Char)
    (h : occursIn pat b = true) : occursIn pat (a ++ b) = true := by
  rcases (occursIn_iff pat b).mp h with ⟨p, q, rfl⟩
  exact (occursIn_iff pat _).mpr ⟨a ++ p, q, by simp⟩

theorem strIncludes_append_right {s : String} (t u : String)
    (h : strIncludes s u = true) : strIncludes (s ++ t) u = true := by
  unfold strIncludes at *
  rw [String.data_append]
  exact occursIn_append_right _ h

theorem strIncludes_append_left {t : String} (s u : String)
    (h : strIncludes t u = true) : strIncludes (s ++ t) u = true := by
  unfold strIncludes at *
  rw [String.data_append]
  exact occursIn_append_left _ h

/-- A string includes itself. -/
theorem strIncludes_self (s : String) : strIncludes s s = true :=
  (occursIn_iff s.data s.data).mpr ⟨[], [], by simp⟩

/-- Every member of a list occurs inside the `", "`-join of the list,
mirroring `array.join(", ")` in the prompt builder. -/
theorem strIncludes_joinSep {t : String} {l : List String} (sep : String)
    (h : t ∈ l) : strIncludes (joinSep sep l) t = true := by
  induction l with
  | nil => cases h
  | cons x rest ih =>
    rcases List.mem_cons.mp h with rfl | hmem
    · cases rest with
      | nil => simpa [joinSep] using strIncludes_self t
      | cons y ys =>
        show strIncludes (t ++ sep ++ joinSep sep (y :: ys)) t = true
        exact strIncludes_append_right _ _ (strIncludes_append_right _ _ (strIncludes_self t))
    · cases rest with
      | nil => cases hmem
      | cons y ys =>
        show strIncludes (x ++ sep ++ joinSep sep (y :: ys)) t = true
        exact strIncludes_append_left _ _ (ih hmem)

/-! ## Substring machinery

Decomposition lemmas used to reason about the gate's substring scans over
prompts assembled by `joinSep`. -/

/-- A pattern leading an appended list either fits inside the left part or
spills over: it is the left part extended by a remainder leading the right
part. -/
theorem leadsWith_append_split (pat a b : List Char)
    (h : leadsWith pat (a ++ b) = true) :
    (∃ s, pat ++ s = a) ∨ (∃ p₂, pat = a ++ p₂ ∧ leadsWith p₂ b = true) := by
  induction pat generalizing a with
  | nil => exact Or.inl ⟨a, rfl⟩
  | cons p ps ih =>
    cases a with
    | nil => exact Or.inr ⟨p :: ps, rfl, h⟩
    | cons x xs =>
      rw [List.cons_append, leadsWith, Bool.and_eq_true, beq_iff_eq] at h
      obtain ⟨rfl, h⟩ := h
      rcases ih xs h with ⟨s, hs⟩ | ⟨p₂, hp, hb⟩
      · exact Or.inl ⟨s, by rw [List.cons_append, hs]⟩
      · exact Or.inr ⟨p₂, by rw [List.cons_append, ← hp], hb⟩

/-- An occurrence in `a ++ b` lies in `a`, lies in `b`, or straddles the
boundary: `pat = p₁ ++ p₂` with a nonempty `p₁` ending `a` and a nonempty
`p₂` leading `b`. -/
theorem occursIn_append_split (pat a b : List Char)
    (h : occursIn pat (a ++ b) = true) :
    occursIn pat a = true ∨ occursIn pat b = true ∨
      ∃ p₁ p₂, pat = p₁ ++ p₂ ∧ p₁ ≠ [] ∧ p₂ ≠ [] ∧
        (∃ s, a = s ++ p₁) ∧ leadsWith p₂ b = true := by
  induction a with
  | nil => exact Or.inr (Or.inl (by simpa using h))
  | cons x rest ih =>
    rw [List.cons_append, occursIn, Bool.or_eq_true] at h
    rcases h with h | h
    · rcases leadsWith_append_split pat (x :: rest) b (by simpa using h) with
        ⟨s, hs⟩ | ⟨p₂, hp, hb⟩
      · exact Or.inl ((occursIn_iff _ _).mpr ⟨[], s, by simp [hs]⟩)
      · cases p₂ with
        | nil =>
          exact Or.inl ((occursIn_iff _ _).mpr ⟨[], [], by simp [hp]⟩)
        | cons z zs =>
          exact Or.inr (Or.inr ⟨x :: rest, z :: zs, hp, by simp, by simp,
            ⟨[], by simp⟩, hb⟩)
    · rcases ih h with h' | h' | ⟨p₁, p₂, hp, h1, h2, ⟨s, hs⟩, hb⟩
      · rcases (occursIn_iff _ _).mp h' with ⟨p, q, hq⟩
        exact Or.inl ((occursIn_iff _ _).mpr ⟨x :: p, q, by simp [hq]⟩)
      · exact Or.inr (Or.inl h')
      · exact Or.inr (Or.inr ⟨p₁, p₂, hp, h1, h2, ⟨x :: s, by simp [hs]⟩, hb⟩)

/-- A nonempty pattern whose first character differs from `c` cannot start at
`c`; occurrence in `c :: rest` reduces to occurrence in `rest`. -/
theorem occursIn_cons_false (pat : List Char) (c : Char) (rest : List Char)
    (hne : pat ≠ []) (hhead : pat.head? ≠ some c)
    (hrest : occursIn pat rest = false) : occursIn pat (c :: rest) = false := by
  rw [occursIn, Bool.or_eq_false_iff]
  refine ⟨?_, hrest⟩
  cases pat with
  | nil => exact absurd rfl hne
  | cons p ps =>
    rw [leadsWith, Bool.and_eq_false_iff]
    left
    simp only [beq_eq_false_iff_ne, ne_eq]
    intro hpc
    exact hhead (by simp [hpc])

/-- If a pattern avoids the last character of `a` and occurs in neither `a`
nor `b`, it does not occur in `a ++ b`: a straddling occurrence would have to
contain `a`'s last character. -/
theorem occursIn_append_false (pat a b : List Char) (c : Char)
    (hlast : a.getLast? = some c) (hnotin : c ∉ pat)
    (ha : occursIn pat a = false) (hb : occursIn pat b = false) :
    occursIn pat (a ++ b) = false := by
  by_contra hcon
  rw [Bool.not_eq_false] at hcon
  rcases occursIn_append_split pat a b hcon with h | h | ⟨p₁, p₂, hp, h1, _, ⟨s, hs⟩, _⟩
  · rw [ha] at h; cases h
  · rw [hb] at h; cases h
  · obtain ⟨d, hd⟩ := Option.isSome_iff_exists.mp (List.getLast?_isSome.mpr h1)
    have hc1 : a.getLast? = some d := by
      rw [hs, List.getLast?_append, hd]; rfl
    have hcd : d = c := by
      rw [hlast] at hc1; exact (Option.some.injEq _ _ ▸ hc1).symm
    have hmem : c ∈ p₁ := by
      rcases List.mem_getLast?_eq_getLast (show c ∈ p₁.getLast? from hcd ▸ hd) with ⟨hne, hc⟩
      rw [hc]; exact List.getLast_mem hne
    exact hnotin (hp ▸ List.mem_append_left p₂ hmem)

/-- Substring occurrence is transitive. -/
theorem occursIn_trans {pat mid l : List Char}
    (h1 : occursIn pat mid = true) (h2 : occursIn mid l = true) :
    occursIn pat l = true := by
  rcases (occursIn_iff _ _).mp h1 with ⟨p, q, rfl⟩
  rcases (occursIn_iff _ _).mp h2 with ⟨p', q', rfl⟩
  exact (occursIn_iff _ _).mpr ⟨p' ++ p, q ++ q', by simp⟩

theorem strIncludes_trans {s mid t : String}
    (h1 : strIncludes mid t = true) (h2 : strIncludes s mid = true) :
    strIncludes s t = true :=
  occursIn_trans h1 h2

/-- `toLowerCase` distributes over string append. -/
theorem jsToLower_append (a b : String) :
    jsToLower (a ++ b) = jsToLower a ++ jsToLower b := by
  unfold jsToLower
  apply congrArg
  show (a ++ b).data.map charLower = (⟨a.data.map charLower⟩ ++ (⟨b.data.map charLower⟩ : String)).data
  rw [String.data_append, String.data_append]
  exact List.map_append charLower a.data b.data

/-- `toLowerCase` of a space-join is the space-join of the lowercased
segments. -/
theorem jsToLower_joinSep (l : List String) :
    jsToLower (joinSep " " l) = joinSep " " (l.map jsToLower) := by
  induction l with
  | nil => rfl
  | cons x rest ih =>
    cases rest with
    | nil => rfl
    | cons y ys =>
      show jsToLower (x ++ " " ++ joinSep " " (y :: ys)) = _
      rw [jsToLower_append, jsToLower_append, ih]
      rfl

/-- A `joinSafePattern` that occurs in no individual (lowercased) segment of
a space-join, where every segment is `lastCharSafe`, does not occur in the
lowercased join. -/
theorem occursIn_jsToLower_joinSep_false (pat : List Char) (segs : List String)
    (hpat : joinSafePattern pat = true)
    (hsegs : ∀ s ∈ segs,
      occursIn pat (jsToLower s).data = false ∧ lastCharSafe s = true) :
    occursIn pat (jsToLower (joinSep " " segs)).data = false := by
  unfold joinSafePattern at hpat
  simp only [Bool.and_eq_true, Bool.not_eq_true', List.isEmpty_eq_false_iff_exists_mem,
    bne_iff_ne, ne_eq, decide_eq_true_eq] at hpat
  obtain ⟨⟨⟨hne', hhead⟩, hdot⟩, hcolon⟩ := hpat
  have hne : pat ≠ [] := by
    rcases hne' with ⟨x, hx⟩
    intro h; rw [h] at hx; cases hx
  clear hne'
  induction segs with
  | nil =>
    simpa [jsToLower, joinSep, occursIn, List.isEmpty_iff] using hne
  | cons x rest ih =>
    cases rest with
    | nil => exact (hsegs x (by simp)).1
    | cons y ys =>
      rw [show joinSep " " (x :: y :: ys) = x ++ " " ++ joinSep " " (y :: ys) from rfl]
      rw [jsToLower_append, jsToLower_append, String.data_append, String.data_append]
      obtain ⟨hx, hxsafe⟩ := hsegs x (by simp)
      have hrest : occursIn pat (jsToLower (joinSep " " (y :: ys))).data = false :=
        ih (fun s hs => hsegs s (by simp [hs]))
      -- the middle " " segment: a (possibly straddling) occurrence cannot
      -- start at the space since the pattern does not start with ' '
      have hspace : occursIn pat ((jsToLower " ").data ++ (jsToLower (joinSep " " (y :: ys))).data) = false := by
        show occursIn pat (' ' :: (jsToLower (joinSep " " (y :: ys))).data) = false
        exact occursIn_cons_false pat ' ' _ hne hhead hrest
      rw [List.append_assoc]
      unfold lastCharSafe at hxsafe
      rcases hcase : (jsToLower x).data.getLast? with _ | c
      · rw [hcase] at hxsafe; simp at hxsafe
      · rw [hcase] at hxsafe
        have hcval : c = '.' ∨ c = ':' := by
          by_contra hc
          push_neg at hc
          obtain ⟨h1, h2⟩ := hc
          -- `lastCharSafe` matched only on '.' and ':'
          cases hc1 : (c = '.' : Bool) <;> cases hc2 : (c = ':' : Bool) <;>
            simp_all [lastCharSafe]
        rcases hcval with rfl | rfl
        · exact occursIn_append_false pat _ _ '.' hcase hdot hx hspace
        · exact occursIn_append_false pat _ _ ':' hcase hcolon hx hspace

/-! ## The built prompts pass the quality gate

A segment is *renovation-clean* when no renovation term occurs in its
lowercased text and it ends in `'.'` or `':'` (so no term can straddle its
boundary inside a space-join). -/

theorem noRenoSeg_spec {s : String} (h : noRenoSeg s = true) :
    (∀ t ∈ RENOVATION_TERMS, occursIn t.data (jsToLower s).data = false) ∧
      lastCharSafe s = true := by
  unfold noRenoSeg at h
  rw [Bool.and_eq_true, List.all_eq_true] at h
  exact ⟨fun t ht => by simpa using h.1 t ht, h.2⟩

set_option maxRecDepth 8192 in
/-- Master lemma: a prompt assembled as a space-join of renovation-clean
segments among which the hard-constraint block and the do-not-modify
boilerplate appear, paired with a negative prompt mentioning
`change layout`, receives no flags from `assessPromptForBannedTerms`. -/
theorem assessPrompt_eq_nil (segs : List String) (neg : String)
    (hhard : HARD_CONSTRAINT_BLOCK ∈ segs)
    (hdont : "Do not modify floors, walls, windows, doors, ceiling, built-ins, cabinetry, or any structural element." ∈ segs)
    (hsegs : ∀ s ∈ segs, noRenoSeg s = true)
    (hneg : strIncludes (jsToLower neg) "change layout" = true) :
    assessPromptForBannedTerms (joinSep " " segs) neg = [] := by
  have hlowjoin : jsToLower (joinSep " " segs) = joinSep " " (segs.map jsToLower) :=
    jsToLower_joinSep segs
  -- a token occurring in a member segment occurs in the lowercased join
  have htok : ∀ (s tok : String), s ∈ segs →
      strIncludes (jsToLower s) tok = true →
      strIncludes (jsToLower (joinSep " " segs)) tok = true := by
    intro s tok hs hocc
    rw [hlowjoin]
    exact strIncludes_trans hocc
      (strIncludes_joinSep " " (List.mem_map_of_mem jsToLower hs))
  -- concept tokens, all covered by the two named segments
  have hcam := htok _ "camera" hhard (by decide)
  have hview := htok _ "viewpoint" hhard (by decide)
  have hpres := htok _ "preserve" hhard (by decide)
  have hdonot := htok _ "do not" hhard (by decide)
  have hstruct := htok _ "structural" hhard (by decide)
  have honly := htok _ "only" hhard (by decide)
  have hfurn := htok _ "furniture" hhard (by decide)
  have hwalls := htok _ "walls" hdont (by decide)
  -- no renovation term occurs in the lowercased join
  have hreno : ∀ t ∈ RENOVATION_TERMS,
      occursIn t.data (jsToLower (joinSep " " segs)).data = false := by
    intro t ht
    have hpatsafe : joinSafePattern t.data = true := by
      have ht' := ht
      simp only [RENOVATION_TERMS, List.mem_cons, List.not_mem_nil, or_false] at ht'
      rcases ht' with rfl | rfl | rfl | rfl | rfl | rfl | rfl | rfl | rfl | rfl |
        rfl | rfl | rfl <;> decide
    exact occursIn_jsToLower_joinSep_false t.data segs hpatsafe
      (fun s hs => ⟨(noRenoSeg_spec (hsegs s hs)).1 t ht, (noRenoSeg_spec (hsegs s hs)).2⟩)
  have hself : strIncludes (joinSep " " segs) HARD_CONSTRAINT_BLOCK = true :=
    strIncludes_joinSep " " hhard
  unfold assessPromptForBannedTerms
  rw [hself]
  rw [List.append_eq_nil, List.append_eq_nil, List.append_eq_nil]
  refine ⟨⟨⟨by simp, ?_⟩, ?_⟩, ?_⟩
  · rw [List.filterMap_eq_nil_iff]
    intro concept hc
    simp only [REQUIRED_CONCEPTS, List.mem_cons, List.not_mem_nil, or_false] at hc
    rcases hc with rfl | rfl | rfl | rfl <;>
      simp [List.all_cons, List.any_cons, hcam, hview, hpres, hdonot, hstruct,
        honly, hfurn, hwalls]
  · rw [List.filterMap_eq_nil_iff]
    intro t ht
    have hthis := hreno t ht
    simp only [strIncludes, hthis]
    rfl
  · have hneg' : (!strIncludes (jsToLower neg) "no architectural changes" &&
        !strIncludes (jsToLower neg) "change layout") = false := by
      rw [hneg]; simp
    rw [hneg']
    rfl

theorem noRenoSeg_hard : noRenoSeg HARD_CONSTRAINT_BLOCK = true := by decide

theorem noRenoSeg_checklist : noRenoSeg CHECKLIST_BLOCK = true := by decide

theorem noRenoSeg_allowed :
    noRenoSeg "Allowed additions only: furniture, decor, textiles, lighting fixtures, wall art, plants, rugs, accessories." = true := by
  decide

theorem noRenoSeg_dontModify :
    noRenoSeg "Do not modify floors, walls, windows, doors, ceiling, built-ins, cabinetry, or any structural element." = true := by
  decide

theorem noRenoSeg_composition :
    noRenoSeg "Composition: photorealistic, natural lighting, interior photography, coherent scale, realistic shadows." = true := by
  decide

theorem noRenoSeg_catalogHeader :
    noRenoSeg "Allowed staging items (MUST choose ONLY from these IDs; do not invent new items):" = true := by
  decide

theorem noRenoSeg_choose :
    noRenoSeg "Choose 5–8 items maximum. If unsure, prefer safer neutral options." = true := by
  decide

theorem noRenoSeg_strictGuard :
    noRenoSeg "Do not add any objects not listed in Allowed staging items." = true := by
  decide

theorem noRenoSeg_roomSeg (rt : RoomType) :
    noRenoSeg ("Room type: " ++ roomTypeName rt ++ ".") = true := by
  cases rt <;> decide

theorem noRenoSeg_vibeSeg (v : Vibe) :
    noRenoSeg ("Vibe: " ++ vibeName v ++ ".") = true := by
  cases v <;> decide

set_option maxRecDepth 8192 in
theorem noRenoSeg_principles (v : Vibe) :
    noRenoSeg ("Design principles: " ++ joinSep ", " (VIBE_DEFINITIONS v).psychology ++ ".") = true := by
  cases v <;> decide

set_option maxRecDepth 8192 in
theorem noRenoSeg_furnitureKit (v : Vibe) :
    noRenoSeg ("Furniture kit: " ++ joinSep ", " (VIBE_DEFINITIONS v).stagingDo ++ ".") = true := by
  cases v <;> decide

set_option maxRecDepth 8192 in
theorem noRenoSeg_visualKeywords (v : Vibe) :
    noRenoSeg ("Visual keywords: " ++ joinSep ", " (VIBE_DEFINITIONS v).visualCues ++ ".") = true := by
  cases v <;> decide

theorem baseNegative_change_layout :
    strIncludes (jsToLower BASE_NEGATIVE_PROMPT) "change layout" = true := by decide

/-- C10 amended: every prompt pair built by the deployed staging prompt
builder — any vibe, room type and strictness, with no room notes and the
spec-modelled (empty) catalog — passes `assessPromptForBannedTerms` with an
empty flag list, so the queue's prompt-gate flagged branch is unreachable
for such jobs. -/
theorem promptBuilder_passes_gate (v : Vibe) (rt : RoomType) (s : Strictness) :
    assessPromptForBannedTerms (buildStagingPrompt v rt none s).prompt
      (buildStagingPrompt v rt none s).negativePrompt = [] := by
  simp only [buildStagingPrompt, buildStagingPromptWith, buildFromDef,
    STAGING_CATALOG, List.map_nil]
  apply assessPrompt_eq_nil
  · exact List.mem_filter.mpr ⟨List.mem_cons_self _ _, by decide⟩
  · refine List.mem_filter.mpr ⟨?_, by decide⟩
    exact .tail _ (.tail _ (.tail _ (.tail _ (.tail _ (.tail _ (.tail _
      (.tail _ (.head _))))))))
  · intro sg hsg
    rw [List.mem_filter] at hsg
    obtain ⟨hmem, hne⟩ := hsg
    simp only [List.mem_cons, List.not_mem_nil, or_false] at hmem
    rcases hmem with rfl | rfl | rfl | rfl | rfl | rfl | rfl | rfl | rfl | rfl |
      rfl | rfl | rfl | rfl | rfl
    · exact noRenoSeg_hard
    · exact noRenoSeg_roomSeg rt
    · simp at hne
    · exact noRenoSeg_vibeSeg v
    · exact noRenoSeg_principles v
    · exact noRenoSeg_furnitureKit v
    · exact noRenoSeg_visualKeywords v
    · exact noRenoSeg_allowed
    · exact noRenoSeg_dontModify
    · exact noRenoSeg_composition
    · exact noRenoSeg_catalogHeader
    · simp [joinSep] at hne
    · exact noRenoSeg_choose
    · cases s with
      | normal => simp at hne
      | strict => exact noRenoSeg_strictGuard
    · exact noRenoSeg_checklist
  · rw [jsToLower_append]
    apply strIncludes_append_right
    rw [jsToLower_append]
    apply strIncludes_append_right
    exact baseNegative_change_layout

/-- A token occurring in a member segment occurs in the lowercased join. -/
theorem strIncludes_lower_joinSep {segs : List String} {s : String} (tok : String)
    (hs : s ∈ segs) (h : strIncludes (jsToLower s) tok = true) :
    strIncludes (jsToLower (joinSep " " segs)) tok = true := by
  rw [jsToLower_joinSep]
  exact strIncludes_trans h (strIncludes_joinSep " " (List.mem_map_of_mem jsToLower hs))

/-! ## Claim theorems -/

/-- C5: for every catalog, vibe, room type, optional room notes and
strictness, the built prompt contains the hard-constraint sentence verbatim,
and the built negative prompt contains the base renovation-exclusion list
and every one of the vibe's forbidden-change terms. -/
theorem buildStagingPrompt_contains_constraints (catalog : List CatalogItem)
    (v : Vibe) (rt : RoomType) (notes : Option String) (s : Strictness) :
    strIncludes (buildStagingPromptWith catalog v rt notes s).prompt
      HARD_CONSTRAINT_BLOCK = true ∧
    strIncludes (buildStagingPromptWith catalog v rt notes s).negativePrompt
      BASE_NEGATIVE_PROMPT = true ∧
    ∀ t ∈ (VIBE_DEFINITIONS v).forbiddenChanges,
      strIncludes (buildStagingPromptWith catalog v rt notes s).negativePrompt t = true := by
  refine ⟨?_, ?_, ?_⟩
  · exact strIncludes_joinSep " "
      (List.mem_filter.mpr ⟨List.mem_cons_self _ _, by decide⟩)
  · exact strIncludes_append_right _ _ (strIncludes_self BASE_NEGATIVE_PROMPT)
  · intro t ht
    show strIncludes (BASE_NEGATIVE_PROMPT ++ (", " ++
      (joinSep ", " (VIBE_DEFINITIONS v).forbiddenChanges ++ _))) t = true
    exact strIncludes_append_left _ _ (strIncludes_append_left _ _
      (strIncludes_append_right _ _ (strIncludes_joinSep ", " ht)))

/-- C5 witness. -/
theorem buildStagingPrompt_contains_constraints_witness :
    "visual clutter" ∈ (VIBE_DEFINITIONS .Purist).forbiddenChanges ∧
    strIncludes (buildStagingPromptWith [] .Purist .living none .normal).negativePrompt
      "visual clutter" = true :=
  ⟨by decide,
   (buildStagingPrompt_contains_constraints [] .Purist .living none .normal).2.2
     "visual clutter" (by decide)⟩

/-- C6 counterexample: the staging module's pair-returning
`buildStagingPrompt` performs the unguarded lookup
`VIBE_DEFINITIONS[vibeId]`, so a vibe id outside the taxonomy produces no
prompt pair (a `TypeError` at runtime) instead of the Classicist pair. -/
theorem stagingBuilder_unknown_vibe_fails :
    buildStagingPromptDyn [] "Bohemian" .living none .normal = none := by
  decide

/-- C6 amended: the Classicist fallback lives in the shared taste-algorithm
`buildStagingPrompt` (the string-returning builder), which treats every
unknown vibe id exactly like `"Classicist"`; the staging module's
pair-returning builder succeeds exactly on the 8 known vibe ids. -/
theorem unknown_vibe_fallback :
    (∀ s, isVibe s = false → ∀ rd cs,
      sharedBuildStagingPrompt s rd cs = sharedBuildStagingPrompt "Classicist" rd cs) ∧
    (∀ catalog (v : Vibe) rt notes str,
      buildStagingPromptDyn catalog (vibeName v) rt notes str =
        some (buildStagingPromptWith catalog v rt notes str)) := by
  constructor
  · intro s hs rd cs
    unfold sharedBuildStagingPrompt
    rw [hs, show isVibe "Classicist" = true from by decide]
    simp
  · intro catalog v rt notes str
    unfold buildStagingPromptDyn buildStagingPromptWith
    rw [show parseVibe (vibeName v) = some v by cases v <;> rfl]
    rfl

/-- C6 witness. -/
theorem unknown_vibe_fallback_witness :
    isVibe "Bohemian" = false ∧
    sharedBuildStagingPrompt "Bohemian" none none =
      sharedBuildStagingPrompt "Classicist" none none :=
  ⟨by decide, unknown_vibe_fallback.1 "Bohemian" (by decide) none none⟩

/-- The squared magnitude (self dot product) is non-negative. -/
theorem dotVibes_self_nonneg (f : Vibe → Option ℚ) : 0 ≤ dotVibes f f := by
  unfold dotVibes
  apply List.sum_nonneg
  intro x hx
  rcases List.mem_map.mp hx with ⟨v, _, rfl⟩
  exact mul_self_nonneg _

/-- C7: `computeVectorMatchScore(v, v) = 100` for every vector of non-zero
magnitude, and the score is 0 whenever either argument is absent or of zero
magnitude (never an error — the function is total). -/
theorem vectorMatchScore_self_and_degenerate :
    (∀ f : Vibe → Option ℚ, dotVibes f f ≠ 0 →
      computeVectorMatchScore (some f) (some f) = 100) ∧
    (∀ l, computeVectorMatchScore none l = 0) ∧
    (∀ b, computeVectorMatchScore b none = 0) ∧
    (∀ (b : Option (Vibe → Option ℚ)) (f : Vibe → Option ℚ), dotVibes f f = 0 →
      computeVectorMatchScore b (some f) = 0) ∧
    (∀ (f : Vibe → Option ℚ) (l : Option (Vibe → Option ℚ)), dotVibes f f = 0 →
      computeVectorMatchScore (some f) l = 0) := by
  have hmain : ∀ f : Vibe → Option ℚ, dotVibes f f ≠ 0 →
      computeVectorMatchScore (some f) (some f) = 100 := by
    intro f hf
    have hpos : 0 < dotVibes f f := lt_of_le_of_ne (dotVibes_self_nonneg f) (Ne.symm hf)
    unfold computeVectorMatchScore
    dsimp only
    rw [if_neg]
    · have hQ : ((dotVibes f f : ℚ) : ℝ) ≠ 0 := by
        exact_mod_cast hf
      have hQ0 : (0 : ℝ) ≤ ((dotVibes f f : ℚ) : ℝ) := by
        exact_mod_cast dotVibes_self_nonneg f
      rw [Real.mul_self_sqrt hQ0, div_self hQ, one_mul]
      have : round ((100 : ℝ)) = (100 : ℤ) := by
        rw [show ((100 : ℝ)) = ((100 : ℤ) : ℝ) by norm_num, round_intCast]
      rw [this]
      unfold clamp
      decide
    · push_neg
      exact ⟨hpos, hpos⟩
  refine ⟨hmain, fun l => rfl, fun b => by cases b <;> rfl, ?_, ?_⟩
  · intro b f hf
    cases b with
    | none => rfl
    | some bf =>
      unfold computeVectorMatchScore
      dsimp only
      rw [if_pos]
      exact Or.inr (le_of_eq hf)
  · intro f l hf
    cases l with
    | none => rfl
    | some lf =>
      unfold computeVectorMatchScore
      dsimp only
      rw [if_pos]
      exact Or.inl (le_of_eq hf)

theorem dotVibes_puristUnit : dotVibes puristUnit puristUnit = 1 := by
  simp [dotVibes, VIBES, vecEntry, puristUnit]

/-- C7 witness: the unit vector at `Purist`. -/
theorem vectorMatchScore_self_witness :
    dotVibes puristUnit puristUnit ≠ 0 ∧
    computeVectorMatchScore (some puristUnit) (some puristUnit) = 100 ∧
    computeVectorMatchScore none (some puristUnit) = 0 :=
  ⟨by rw [dotVibes_puristUnit]; norm_num,
   vectorMatchScore_self_and_degenerate.1 _ (by rw [dotVibes_puristUnit]; norm_num),
   vectorMatchScore_self_and_degenerate.2.1 _⟩

/-- Invariants of the `withRetry` loop, by induction on the remaining
retries. -/
theorem withRetryGo_spec {α : Type} (fn : ℕ → Except String α) (baseDelay : ℕ) :
    ∀ (remaining attempt : ℕ),
      (withRetryGo fn baseDelay attempt remaining).calls ≤ remaining + 1 ∧
      (withRetryGo fn baseDelay attempt remaining).calls =
        (withRetryGo fn baseDelay attempt remaining).delays.length + 1 ∧
      (∀ k : ℕ, k < (withRetryGo fn baseDelay attempt remaining).delays.length →
        (withRetryGo fn baseDelay attempt remaining).delays.get? k =
          some (baseDelay * 2 ^ (attempt + k))) ∧
      (∀ k, k + 1 < (withRetryGo fn baseDelay attempt remaining).calls →
        ∃ e, fn (attempt + k) = .error e ∧ isQuotaMessage e = true) ∧
      (∀ k e, k < (withRetryGo fn baseDelay attempt remaining).calls →
        fn (attempt + k) = .error e → isQuotaMessage e = false →
        (withRetryGo fn baseDelay attempt remaining).calls = k + 1 ∧
        (withRetryGo fn baseDelay attempt remaining).outcome = .error e) := by
  intro remaining
  induction remaining with
  | zero =>
    intro attempt
    refine ⟨by dsimp only [withRetryGo]; omega, rfl,
      by dsimp only [withRetryGo]; intro k h; exact absurd h (by simp),
      by dsimp only [withRetryGo]; intro k h; omega, ?_⟩
    intro k e hk hke _
    dsimp only [withRetryGo] at hk ⊢
    have hk0 : k = 0 := by omega
    rw [hk0, Nat.add_zero] at hke
    exact ⟨by omega, by rw [hke]⟩
  | succ rem ih =>
    intro attempt
    unfold withRetryGo
    split
    next a heq =>
      refine ⟨by dsimp only; omega, rfl,
        by dsimp only; intro k h; exact absurd h (by simp),
        by dsimp only; intro k h; omega, ?_⟩
      intro k e hk hke _
      dsimp only at hk
      have hk0 : k = 0 := by omega
      rw [hk0, Nat.add_zero, heq] at hke
      cases hke
    next e heq =>
      by_cases hq : isQuotaMessage e = true
      · rw [if_pos hq]
        obtain ⟨ih1, ih2, ih3, ih4, ih5⟩ := ih (attempt + 1)
        dsimp only
        refine ⟨by omega, by simp only [List.length_cons]; omega, ?_, ?_, ?_⟩
        · intro k h
          cases k with
          | zero => simp
          | succ k' =>
            have h' : k' < (withRetryGo fn baseDelay (attempt + 1) rem).delays.length := by
              simpa using h
            have := ih3 k' h'
            rw [List.get?_cons_succ, this, show attempt + 1 + k' = attempt + (k' + 1) by omega]
        · intro k hk
          cases k with
          | zero => exact ⟨e, by simpa using heq, hq⟩
          | succ k' =>
            have hk' : k' + 1 < (withRetryGo fn baseDelay (attempt + 1) rem).calls := by
              omega
            obtain ⟨e', he', hqe'⟩ := ih4 k' hk'
            exact ⟨e', by rw [show attempt + (k' + 1) = attempt + 1 + k' by omega]; exact he', hqe'⟩
        · intro k e' hk hke hqe'
          cases k with
          | zero =>
            rw [Nat.add_zero, heq] at hke
            cases hke
            rw [hq] at hqe'
            cases hqe'
          | succ k' =>
            have hk' : k' < (withRetryGo fn baseDelay (attempt + 1) rem).calls := by
              omega
            have hke' : fn (attempt + 1 + k') = .error e' := by
              rw [show attempt + 1 + k' = attempt + (k' + 1) by omega]
              exact hke
            obtain ⟨hc, ho⟩ := ih5 k' e' hk' hke' hqe'
            exact ⟨by omega, ho⟩
      · rw [if_neg hq]
        rw [Bool.not_eq_true] at hq
        refine ⟨by dsimp only; omega, rfl,
          by dsimp only; intro k h; exact absurd h (by simp),
          by dsimp only; intro k h; omega, ?_⟩
        intro k e' hk hke _
        dsimp only at hk
        have hk0 : k = 0 := by omega
        subst hk0
        rw [Nat.add_zero, heq] at hke
        cases hke
        exact ⟨rfl, rfl⟩

/-- C9: `withRetry` makes at most `maxRetries + 1` calls; the delay before
the `k`-th retry is `baseDelay * 2^k` (doubling from the base); every retry
follows a quota/429-class failure; and a non-quota failure at any reached
attempt ends the run immediately with that error propagated. -/
theorem withRetry_spec {α : Type} (fn : ℕ → Except String α)
    (maxRetries baseDelay : ℕ) :
    (withRetry fn maxRetries baseDelay).calls ≤ maxRetries + 1 ∧
    (∀ k : ℕ, k < (withRetry fn maxRetries baseDelay).delays.length →
      (withRetry fn maxRetries baseDelay).delays.get? k = some (baseDelay * 2 ^ k)) ∧
    (∀ k, k + 1 < (withRetry fn maxRetries baseDelay).calls →
      ∃ e, fn k = .error e ∧ isQuotaMessage e = true) ∧
    (∀ k e, k < (withRetry fn maxRetries baseDelay).calls →
      fn k = .error e → isQuotaMessage e = false →
      (withRetry fn maxRetries baseDelay).calls = k + 1 ∧
      (withRetry fn maxRetries baseDelay).outcome = .error e) := by
  obtain ⟨h1, _, h3, h4, h5⟩ := withRetryGo_spec fn baseDelay maxRetries 0
  exact ⟨h1, by simpa using h3, by simpa using h4, by simpa using h5⟩

/-- C9 witness: with the default `maxRetries = 3`, `baseDelay = 5000`, the
task above is called twice — the quota failure is retried after 5000ms, the
non-quota failure propagates immediately. -/
theorem withRetry_spec_witness :
    (1 < (withRetry retryWitnessTask 3 5000).calls ∧
      retryWitnessTask 1 = .error "boom" ∧ isQuotaMessage "boom" = false) ∧
    (withRetry retryWitnessTask 3 5000).calls = 2 ∧
    (withRetry retryWitnessTask 3 5000).outcome = .error "boom" :=
  ⟨⟨by decide, rfl, by decide⟩,
   (withRetry_spec retryWitnessTask 3 5000).2.2.2 1 "boom" (by decide) rfl (by decide)⟩

/-- C4 amended: the buyer vibe vector sums to 1 within 1e-3 whenever the
total of the floored per-vibe weights is positive, and sums to 0 when every
per-vibe raw weight floors to 0. -/
theorem buyerVector_sum (events : List SwipeEventIn) :
    (0 < buyerTotal events →
      |(VIBES.map (computeBuyerVibeVector events).vector).sum - 1| ≤ 1 / 1000) ∧
    (buyerTotal events = 0 →
      (VIBES.map (computeBuyerVibeVector events).vector).sum = 0) := by
  constructor
  · intro h
    have hv : (computeBuyerVibeVector events).vector =
        fun v => toFixed4 (buyerFloored events v / buyerTotal events) := by
      funext v
      simp only [computeBuyerVibeVector]
      rw [if_pos h]
    have hshare : (VIBES.map (fun v => buyerFloored events v / buyerTotal events)).sum = 1 := by
      rw [sum_map_div]
      exact div_self (ne_of_gt h)
    have hbound := abs_sum_map_sub_sum_map VIBES
      (fun v => toFixed4 (buyerFloored events v / buyerTotal events))
      (fun v => buyerFloored events v / buyerTotal events)
      (1 / 20000) (fun v _ => abs_toFixed4_sub _)
    rw [hshare] at hbound
    rw [hv]
    calc |(VIBES.map fun v => toFixed4 (buyerFloored events v / buyerTotal events)).sum - 1|
        ≤ (VIBES.length : ℚ) * (1 / 20000) := hbound
      _ ≤ 1 / 1000 := by norm_num [VIBES]
  · intro h
    simp only [computeBuyerVibeVector, h, lt_irrefl, if_false]
    simp [VIBES]

theorem cexEvents_raw : buyerRaw cexEvents = fun v =>
    if v = .Purist then -1 else 0 := by
  funext v
  simp only [buyerRaw, cexEvents, List.foldl_cons, List.foldl_nil, parseVibe,
    VIBES, vibeName, List.find?, ACTION_WEIGHTS]
  norm_num [Function.update]
  cases v <;> simp

theorem cexEvents_total : buyerTotal cexEvents = 0 := by
  simp only [buyerTotal, buyerFloored, cexEvents_raw, VIBES, List.map_cons,
    List.map_nil, List.sum_cons, List.sum_nil]
  simp

/-- C4 counterexample: `cexEvents` contains an event of positive weight on a
known vibe, but the produced vector sums to 0, not to 1 within 1e-3. -/
theorem buyerVector_sum_counterexample :
    ({ vibe := some "Purist", action := .like } : SwipeEventIn) ∈ cexEvents ∧
    (0 : ℚ) < ACTION_WEIGHTS .like ∧
    isVibe "Purist" = true ∧
    (VIBES.map (computeBuyerVibeVector cexEvents).vector).sum = 0 ∧
    ¬ |(VIBES.map (computeBuyerVibeVector cexEvents).vector).sum - 1| ≤ 1 / 1000 := by
  have hsum : (VIBES.map (computeBuyerVibeVector cexEvents).vector).sum = 0 := by
    simp only [computeBuyerVibeVector, cexEvents_total, lt_irrefl, if_false]
    simp [VIBES]
  refine ⟨by simp [cexEvents], by norm_num [ACTION_WEIGHTS], by decide, hsum, ?_⟩
  rw [hsum]
  norm_num

/-- C4 witness: a single `like` on `Purist` gives positive total, and the
vector sums to 1 within 1e-3. -/
theorem buyerVector_sum_witness :
    0 < buyerTotal [{ vibe := some "Purist", action := .like }] ∧
    |(VIBES.map (computeBuyerVibeVector
        [{ vibe := some "Purist", action := .like }]).vector).sum - 1| ≤ 1 / 1000 := by
  have htot : buyerTotal [{ vibe := some "Purist", action := .like }] = 2 := by
    simp only [buyerTotal, buyerFloored, buyerRaw, List.foldl_cons, List.foldl_nil,
      parseVibe, VIBES, vibeName, List.find?, ACTION_WEIGHTS, List.map_cons,
      List.map_nil, List.sum_cons, List.sum_nil]
    norm_num [Function.update]
    simp
  have hpos : 0 < buyerTotal [{ vibe := some "Purist", action := .like }] := by
    rw [htot]; norm_num
  exact ⟨hpos, (buyerVector_sum _).1 hpos⟩

theorem listingScore_eq (haystack : String) (v : Vibe) :
    listingScore haystack v = max (1 / 100) ((listingMatched haystack v).length : ℚ) :=
  rfl

theorem listingScore_pos (haystack : String) (v : Vibe) :
    (0 : ℚ) < listingScore haystack v :=
  lt_of_lt_of_le (by norm_num) (le_max_left _ _)

theorem listingTotalRaw_pos (haystack : String) :
    0 < (VIBES.map (listingScore haystack)).sum := by
  apply List.sum_pos
  · intro x hx
    rcases List.mem_map.mp hx with ⟨v, _, rfl⟩
    exact listingScore_pos haystack v
  · simp [VIBES]

theorem listingTotal_eq (haystack : String) :
    listingTotal haystack = (VIBES.map (listingScore haystack)).sum := by
  unfold listingTotal
  rw [if_neg (ne_of_gt (listingTotalRaw_pos haystack))]

/-- C8 amended: each vibe is scored by counting its keyword and visual-cue
terms occurring in the lowercased text, floored at 0.01; the vector is the
score vector normalized by the total and rounded to three decimals, so its
values sum to 1 only up to rounding (within 4e-3). -/
theorem listingVector_sum (input : ListingComputeInput) :
    |(VIBES.map (computeListingVibeVector input).vibeVector).sum - 1| ≤ 1 / 250 := by
  have hshare : (VIBES.map (fun v =>
      listingScore (listingHaystack input) v / listingTotal (listingHaystack input))).sum = 1 := by
    rw [sum_map_div, listingTotal_eq]
    exact div_self (ne_of_gt (listingTotalRaw_pos _))
  have hv : (computeListingVibeVector input).vibeVector = fun v =>
      round3 (listingScore (listingHaystack input) v / listingTotal (listingHaystack input)) :=
    rfl
  have hbound := abs_sum_map_sub_sum_map VIBES
    (fun v => round3 (listingScore (listingHaystack input) v / listingTotal (listingHaystack input)))
    (fun v => listingScore (listingHaystack input) v / listingTotal (listingHaystack input))
    (1 / 2000) (fun v _ => abs_round3_sub _)
  rw [hshare] at hbound
  rw [hv]
  calc |(VIBES.map fun v =>
        round3 (listingScore (listingHaystack input) v / listingTotal (listingHaystack input))).sum - 1|
      ≤ (VIBES.length : ℚ) * (1 / 2000) := hbound
    _ ≤ 1 / 250 := by norm_num [VIBES]

/-- C8 counterexample: the returned vibe vector of `cListingInput` sums to
1.001, not 1 — the three-decimal rounding of each normalized entry breaks
the exact-sum property. -/
theorem listingVector_sum_counterexample :
    (VIBES.map (computeListingVibeVector cListingInput).vibeVector).sum = 1001 / 1000 ∧
    (VIBES.map (computeListingVibeVector cListingInput).vibeVector).sum ≠ 1 := by
  have e0 : (listingMatched (listingHaystack cListingInput) .Purist).length = 2 := by decide
  have e1 : (listingMatched (listingHaystack cListingInput) .Industrialist).length = 0 := by decide
  have e2 : (listingMatched (listingHaystack cListingInput) .Monarch).length = 0 := by decide
  have e3 : (listingMatched (listingHaystack cListingInput) .Futurist).length = 0 := by decide
  have e4 : (listingMatched (listingHaystack cListingInput) .Naturalist).length = 0 := by decide
  have e5 : (listingMatched (listingHaystack cListingInput) .Curator).length = 0 := by decide
  have e6 : (listingMatched (listingHaystack cListingInput) .Classicist).length = 0 := by decide
  have e7 : (listingMatched (listingHaystack cListingInput) .Nomad).length = 0 := by decide
  have hscores : VIBES.map (listingScore (listingHaystack cListingInput)) =
      [2, 1/100, 1/100, 1/100, 1/100, 1/100, 1/100, 1/100] := by
    simp only [VIBES, List.map_cons, List.map_nil, listingScore_eq,
      e0, e1, e2, e3, e4, e5, e6, e7]
    norm_num
  have htotal : listingTotal (listingHaystack cListingInput) = 207 / 100 := by
    rw [listingTotal_eq, hscores]
    norm_num
  have hsum : (VIBES.map (computeListingVibeVector cListingInput).vibeVector).sum
      = 1001 / 1000 := by
    have hv : (computeListingVibeVector cListingInput).vibeVector = fun v =>
        round3 (listingScore (listingHaystack cListingInput) v /
          listingTotal (listingHaystack cListingInput)) := rfl
    rw [hv]
    simp only [VIBES, List.map_cons, List.map_nil, List.sum_cons, List.sum_nil,
      listingScore_eq, e0, e1, e2, e3, e4, e5, e6, e7, htotal]
    norm_num [round3, jsRound]
  exact ⟨hsum, by rw [hsum]; norm_num⟩

/-- C2 amended: a job whose prompt fails the gate goes
`queued → running → flagged`, records the flags and the error
`"Prompt failed staging quality gate."`, and triggers no provider call. -/
theorem queue_gate_fail (job : QueueJob) (env : ℕ → AttemptEnv)
    (h : assessPromptForBannedTerms job.prompt job.negativePrompt ≠ []) :
    (processJob job env).statusTrace = [.queued, .running, .flagged] ∧
    (processJob job env).finalState.status = .flagged ∧
    (processJob job env).finalState.qualityFlags =
      some (assessPromptForBannedTerms job.prompt job.negativePrompt) ∧
    (processJob job env).finalState.error = some "Prompt failed staging quality gate." ∧
    (processJob job env).providerCalls = [] := by
  simp only [processJob]
  rw [if_pos h]
  exact ⟨rfl, rfl, rfl, rfl, rfl⟩

/-- C2 counterexample: the gate-failing job passes through `running` on its
way to `flagged` (the trace is not the direct `queued → flagged` step), and
the recorded error string carries a trailing period, so it differs from
"Prompt failed staging quality gate"; no provider call is made. -/
theorem queue_gate_fail_counterexample :
    (processJob cGateJob cIdleEnv).statusTrace = [.queued, .running, .flagged] ∧
    (processJob cGateJob cIdleEnv).statusTrace ≠ [.queued, .flagged] ∧
    (processJob cGateJob cIdleEnv).finalState.error =
      some "Prompt failed staging quality gate." ∧
    (processJob cGateJob cIdleEnv).finalState.error ≠
      some "Prompt failed staging quality gate" ∧
    (processJob cGateJob cIdleEnv).providerCalls = [] := by
  decide

/-- C2 witness. -/
theorem queue_gate_fail_witness :
    assessPromptForBannedTerms cGateJob.prompt cGateJob.negativePrompt ≠ [] ∧
    (processJob cGateJob cIdleEnv).statusTrace = [.queued, .running, .flagged] ∧
    (processJob cGateJob cIdleEnv).providerCalls = [] :=
  ⟨by decide,
   (queue_gate_fail cGateJob cIdleEnv (by decide)).1,
   (queue_gate_fail cGateJob cIdleEnv (by decide)).2.2.2.2⟩

/-- C3: along every processing of a staging job — any job contents and any
provider behavior — the status trace never leaves a terminal state. -/
theorem queue_terminal_no_escape (job : QueueJob) (env : ℕ → AttemptEnv) :
    noTerminalEscape (processJob job env).statusTrace := by
  simp only [processJob]
  split
  · show noTerminalEscape [.queued, .running, .flagged]
    decide
  · split
    · simp only [processJob.finishSuccess]
      split
      · show noTerminalEscape [.queued, .running, .flagged]
        decide
      · show noTerminalEscape [.queued, .running, .done]
        decide
    · split
      · simp only [processJob.finishSuccess]
        split
        · show noTerminalEscape [.queued, .running, .running, .flagged]
          decide
        · show noTerminalEscape [.queued, .running, .running, .done]
          decide
      · show noTerminalEscape [.queued, .running, .running, .failed]
        decide

/-- C3 witness. -/
theorem queue_terminal_no_escape_witness :
    noTerminalEscape (processJob cGateJob cIdleEnv).statusTrace :=
  queue_terminal_no_escape cGateJob cIdleEnv

/-- `generateStagedImage` never reports success together with a safety
block: every successful result has `safetyBlocked` absent. -/
theorem generateStagedImage_success_safety (o : VertexOutcome)
    (r : ImageGenerationResult) (h : generateStagedImage o = .ok r)
    (hs : r.success = true) : r.safetyBlocked = none := by
  unfold generateStagedImage at h
  split at h
  · cases h; cases hs
  · split at h
    · cases h; cases hs
    · split at h
      · cases h; cases hs
      · split at h
        · cases h; cases hs
        · cases h; rfl
  · split at h
    · cases h
    · split at h
      · cases h; cases hs
      · cases h; cases hs

/-- Through the in-repo provider chain, a successful attempt always carries
clean metadata: `safetyBlocked = false` and no geometry signal. -/
theorem provider_ok_meta (input : ProviderGenerateInput) (env : AttemptEnv)
    (g : ProviderGenerateOutput)
    (h : generateStagedImageWithProvider input env = .ok g) :
    g.providerMeta = some { safetyBlocked := false, geometryChanged := none } := by
  unfold generateStagedImageWithProvider at h
  cases hurl : urlToDataUrl input.inputImageUrl env.fetch with
  | error e => rw [hurl] at h; cases h
  | ok ref =>
    rw [hurl] at h
    simp only [bind, Except.bind] at h
    cases hgen : generateStagedImage env.vertex with
    | error e => rw [hgen] at h; cases h
    | ok r =>
      rw [hgen] at h
      dsimp only at h
      cases hdata : r.imageData with
      | none => rw [hdata] at h; dsimp only at h; cases h
      | some data =>
        rw [hdata] at h
        dsimp only at h
        by_cases hcond : (r.success && data != "") = true
        · rw [if_pos hcond] at h
          cases h
          have hsucc : r.success = true := (Bool.and_eq_true _ _ ▸ hcond).1
          rw [generateStagedImage_success_safety env.vertex r hgen hsucc]
          rfl
        · rw [if_neg hcond] at h; cases h

/-- C1 amended: for a job whose prompt passes the gate, the queue makes at
most two provider attempts; when the first fails it retries exactly once,
sending the job's negative prompt with the escalation clause appended; a
failed-then-successful pair of attempts ends the job `done`; two failures
end it `failed` with the last failure's message as the error (an empty
message being recorded as `"generation_failed"`). -/
theorem queue_retry (job : QueueJob) (env : ℕ → AttemptEnv)
    (hgate : assessPromptForBannedTerms job.prompt job.negativePrompt = []) :
    ((processJob job env).providerCalls.length ≤ 2) ∧
    (∀ e0, generateStagedImageWithProvider
        { inputImageUrl := job.inputImageUrl, prompt := job.prompt,
          negativePrompt := job.negativePrompt } (env 0) = .error e0 →
      (processJob job env).providerCalls =
        [{ inputImageUrl := job.inputImageUrl, prompt := job.prompt,
           negativePrompt := job.negativePrompt },
         { inputImageUrl := job.inputImageUrl, prompt := job.prompt,
           negativePrompt := job.negativePrompt ++ ESCALATION_CLAUSE }]) ∧
    (∀ e0 g, generateStagedImageWithProvider
        { inputImageUrl := job.inputImageUrl, prompt := job.prompt,
          negativePrompt := job.negativePrompt } (env 0) = .error e0 →
      generateStagedImageWithProvider
        { inputImageUrl := job.inputImageUrl, prompt := job.prompt,
          negativePrompt := job.negativePrompt ++ ESCALATION_CLAUSE } (env 1) = .ok g →
      (processJob job env).finalState.status = .done) ∧
    (∀ e0 e1, generateStagedImageWithProvider
        { inputImageUrl := job.inputImageUrl, prompt := job.prompt,
          negativePrompt := job.negativePrompt } (env 0) = .error e0 →
      generateStagedImageWithProvider
        { inputImageUrl := job.inputImageUrl, prompt := job.prompt,
          negativePrompt := job.negativePrompt ++ ESCALATION_CLAUSE } (env 1) = .error e1 →
      (processJob job env).finalState.status = .failed ∧
      (processJob job env).finalState.error =
        some (if e1 = "" then "generation_failed" else e1)) := by
  have hneg : ¬(assessPromptForBannedTerms job.prompt job.negativePrompt ≠ []) :=
    fun hc => hc hgate
  refine ⟨?_, ?_, ?_, ?_⟩
  · simp only [processJob]
    rw [if_neg hneg]
    split
    · simp only [processJob.finishSuccess]
      split <;> simp
    · split
      · simp only [processJob.finishSuccess]
        split <;> simp
      · simp
  · intro e0 h0
    simp only [processJob]
    rw [if_neg hneg, h0]
    dsimp only
    split
    · simp only [processJob.finishSuccess]
      split <;> rfl
    · rfl
  · intro e0 g h0 h1
    simp only [processJob]
    rw [if_neg hneg, h0]
    dsimp only
    rw [h1]
    dsimp only
    simp only [processJob.finishSuccess]
    rw [provider_ok_meta _ _ _ h1]
    rfl
  · intro e0 e1 h0 h1
    simp only [processJob]
    rw [if_neg hneg, h0]
    dsimp only
    rw [h1]
    dsimp only
    refine ⟨rfl, ?_⟩
    show jsErrField (some (jsOrStr (some (caughtMessage e1))
      "Staging generation failed after retry.")) = _
    by_cases he : e1 = ""
    · simp [caughtMessage, jsOrStr, jsErrField, he]
    · simp [caughtMessage, jsOrStr, jsErrField, he]

theorem c1Job_gate :
    assessPromptForBannedTerms c1Job.prompt c1Job.negativePrompt = [] := by
  apply assessPrompt_eq_nil
  · exact List.mem_cons_self _ _
  · exact List.Mem.tail _ (List.Mem.head _)
  · intro s hs
    rcases List.mem_cons.mp hs with rfl | hs'
    · exact noRenoSeg_hard
    · rcases List.mem_cons.mp hs' with rfl | hs''
      · exact noRenoSeg_dontModify
      · cases hs''
  · exact baseNegative_change_layout

/-- C1 counterexample: with both attempts failing and the last failure's
message empty, the job ends `failed` but its recorded error is
`"generation_failed"`, not the last failure message `""`. -/
theorem queue_retry_counterexample :
    assessPromptForBannedTerms c1Job.prompt c1Job.negativePrompt = [] ∧
    generateStagedImageWithProvider
      { inputImageUrl := c1Job.inputImageUrl, prompt := c1Job.prompt,
        negativePrompt := c1Job.negativePrompt } (c1FailEnv 0) = .error "" ∧
    generateStagedImageWithProvider
      { inputImageUrl := c1Job.inputImageUrl, prompt := c1Job.prompt,
        negativePrompt := c1Job.negativePrompt ++ ESCALATION_CLAUSE } (c1FailEnv 1) = .error "" ∧
    (processJob c1Job c1FailEnv).finalState.status = .failed ∧
    (processJob c1Job c1FailEnv).finalState.error = some "generation_failed" ∧
    (processJob c1Job c1FailEnv).finalState.error ≠ some "" := by
  have h0 : generateStagedImageWithProvider
      { inputImageUrl := c1Job.inputImageUrl, prompt := c1Job.prompt,
        negativePrompt := c1Job.negativePrompt } (c1FailEnv 0) = .error "" := by
    unfold generateStagedImageWithProvider urlToDataUrl
    rw [show strStartsWith c1Job.inputImageUrl "data:image/" = false from by decide]
    rw [show (strStartsWith c1Job.inputImageUrl "http://" ||
      strStartsWith c1Job.inputImageUrl "https://") = true from by decide]
    rfl
  have h1 : generateStagedImageWithProvider
      { inputImageUrl := c1Job.inputImageUrl, prompt := c1Job.prompt,
        negativePrompt := c1Job.negativePrompt ++ ESCALATION_CLAUSE } (c1FailEnv 1) = .error "" := by
    unfold generateStagedImageWithProvider urlToDataUrl
    rw [show strStartsWith c1Job.inputImageUrl "data:image/" = false from by decide]
    rw [show (strStartsWith c1Job.inputImageUrl "http://" ||
      strStartsWith c1Job.inputImageUrl "https://") = true from by decide]
    rfl
  have hrun : (processJob c1Job c1FailEnv).finalState =
      { status := .failed, error := some "generation_failed", qualityFlags := none } := by
    simp only [processJob]
    rw [if_neg (fun hc => hc c1Job_gate), h0, h1]
    rfl
  refine ⟨c1Job_gate, h0, h1, ?_, ?_, ?_⟩ <;> simp [hrun]

/-- C1 witness. -/
theorem queue_retry_witness :
    assessPromptForBannedTerms c1Job.prompt c1Job.negativePrompt = [] ∧
    (processJob c1Job c1MsgEnv).providerCalls =
      [{ inputImageUrl := c1Job.inputImageUrl, prompt := c1Job.prompt,
         negativePrompt := c1Job.negativePrompt },
       { inputImageUrl := c1Job.inputImageUrl, prompt := c1Job.prompt,
         negativePrompt := c1Job.negativePrompt ++ ESCALATION_CLAUSE }] ∧
    (processJob c1Job c1MsgEnv).finalState.status = .failed ∧
    (processJob c1Job c1MsgEnv).finalState.error = some "network down" := by
  have h0 : generateStagedImageWithProvider
      { inputImageUrl := c1Job.inputImageUrl, prompt := c1Job.prompt,
        negativePrompt := c1Job.negativePrompt } (c1MsgEnv 0) = .error "network down" := by
    unfold generateStagedImageWithProvider urlToDataUrl
    rw [show strStartsWith c1Job.inputImageUrl "data:image/" = false from by decide]
    rw [show (strStartsWith c1Job.inputImageUrl "http://" ||
      strStartsWith c1Job.inputImageUrl "https://") = true from by decide]
    rfl
  have h1 : generateStagedImageWithProvider
      { inputImageUrl := c1Job.inputImageUrl, prompt := c1Job.prompt,
        negativePrompt := c1Job.negativePrompt ++ ESCALATION_CLAUSE } (c1MsgEnv 1) = .error "network down" := by
    unfold generateStagedImageWithProvider urlToDataUrl
    rw [show strStartsWith c1Job.inputImageUrl "data:image/" = false from by decide]
    rw [show (strStartsWith c1Job.inputImageUrl "http://" ||
      strStartsWith c1Job.inputImageUrl "https://") = true from by decide]
    rfl
  obtain ⟨_, hcalls, _, hfail⟩ := queue_retry c1Job c1MsgEnv c1Job_gate
  obtain ⟨hst, herr⟩ := hfail "network down" "network down" h0 h1
  exact ⟨c1Job_gate, hcalls "network down" h0, hst, by simpa using herr⟩

/-- C10 counterexample: with room notes containing renovation vocabulary the
built prompt pair is flagged by the gate — the claim fails for arbitrary
room notes. -/
theorem promptBuilder_gate_counterexample :
    assessPromptForBannedTerms
      (buildStagingPrompt .Purist .living (some renoNotes) .normal).prompt
      (buildStagingPrompt .Purist .living (some renoNotes) .normal).negativePrompt ≠ [] := by
  have hterm : strIncludes
      (jsToLower (buildStagingPrompt .Purist .living (some renoNotes) .normal).prompt)
      "knock down wall" = true := by
    simp only [buildStagingPrompt, buildStagingPromptWith, buildFromDef,
      STAGING_CATALOG, List.map_nil]
    refine strIncludes_lower_joinSep (s := "Room notes: " ++ renoNotes ++ ".") "knock down wall" ?_ (by decide)
    refine List.mem_filter.mpr ⟨?_, by decide⟩
    exact List.Mem.tail _ (List.Mem.tail _ (List.Mem.head _))
  intro hnil
  simp only [assessPromptForBannedTerms] at hnil
  obtain ⟨habc, _⟩ := List.append_eq_nil.mp hnil
  obtain ⟨_, hC⟩ := List.append_eq_nil.mp habc
  rw [List.filterMap_eq_nil_iff] at hC
  have hknock := hC "knock down wall" (by decide)
  rw [hterm] at hknock
  simp at hknock

end Taste
